import Mathlib

/-!
Verification development for the render-orchestrator intake service.

The Python sources under `app/` are shallowly embedded below: pure helpers
become Lean functions over `List Char` / `String`, the mutable module-level
state (`SESSIONS`, `TRANSCRIPTS`, the SQL `applications` table) becomes an
explicit `World` record threaded through the turn handler, and the awaited
external collaborators (address and attorney verification, knowledge-base
search, the date parser) become an `Oracle` record of response functions.
Machine integers play no role; counters are `Nat`.

Helpers that `app/main.py` imports from `app.utils` but that are absent from
the sources (`normalize_phone`, `extract_amount_usd`, `map_correction_field`,
`next_missing_stage`, `parse_incident_date`, `infer_state_from_address`) are
modelled from the specification and marked as such in their doc comments.
-/

/-- ASCII whitespace test used for Python `str.strip` / `str.split` /
`\s` in the regexes of `app/utils.py`. -/
def wsb (c : Char) : Bool :=
  c = ' ' ∨ c = '\t' ∨ c = '\n' ∨ c = '\r' ∨ c = '\x0b' ∨ c = '\x0c'

/-- Python `\w` word characters (ASCII fragment), for `\b` boundaries. -/
def wordChar (c : Char) : Bool :=
  (('a' ≤ c ∧ c ≤ 'z') ∨ ('A' ≤ c ∧ c ≤ 'Z') ∨ ('0' ≤ c ∧ c ≤ '9') ∨ c = '_')

/-- ASCII lower-casing of one character (Python `str.lower` on the ASCII
range, which is all the engine's vocabulary uses). -/
def lowerChar (c : Char) : Char :=
  if 'A' ≤ c ∧ c ≤ 'Z' then Char.ofNat (c.toNat + 32) else c

/-- Python `str.lower`. -/
def lowerStr (s : String) : String := String.mk (s.data.map lowerChar)

/-- Strip leading and trailing whitespace from a character list. -/
def stripList (l : List Char) : List Char :=
  ((l.dropWhile wsb).reverse.dropWhile wsb).reverse

/-- Python `str.strip()`. -/
def pyStrip (s : String) : String := String.mk (stripList s.data)

/-- Tokenizer behind Python `str.split()` (split on whitespace runs,
dropping empty pieces); `acc` holds the current token reversed. -/
def splitWsAux : List Char → List Char → List (List Char)
  | [], acc => if acc.isEmpty then [] else [acc.reverse]
  | c :: t, acc =>
    if wsb c then
      if acc.isEmpty then splitWsAux t [] else acc.reverse :: splitWsAux t []
    else splitWsAux t (c :: acc)

/-- Python `str.split()` with no separator argument. -/
def pySplit (s : String) : List String :=
  (splitWsAux s.data []).map String.mk

/-- `pre` is a prefix of `l` (used to search for literal substrings). -/
def listPre : List Char → List Char → Bool
  | [], _ => true
  | _ :: _, [] => false
  | p :: ps, c :: cs => p = c && listPre ps cs

/-- Substring occurrence on character lists, Python's `pat in hay`
for a non-empty `pat`. -/
def containsSubL (hay pat : List Char) : Bool :=
  match hay with
  | [] => listPre pat []
  | _ :: t => listPre pat hay || containsSubL t pat

/-- Python substring membership `pat in hay`. -/
def containsSub (hay pat : String) : Bool := containsSubL hay.data pat.data

/-- Replace every occurrence of `pat` (non-overlapping, left to right) by
`rep`, Python `str.replace`; `fuel` bounds the scan by the input length. -/
def replaceAllL (fuel : Nat) (l pat rep : List Char) : List Char :=
  match fuel, l with
  | 0, l => l
  | _ + 1, [] => []
  | f + 1, c :: t =>
    if pat ≠ [] ∧ listPre pat (c :: t) then
      rep ++ replaceAllL f ((c :: t).drop pat.length) pat rep
    else c :: replaceAllL f t pat rep

/-- Python `str.replace(pat, rep)`. -/
def pyReplace (s pat rep : String) : String :=
  String.mk (replaceAllL s.data.length s.data pat.data rep.data)

/-- `re.sub(r"\b<word>\b", rep, s)`: replace whole-word occurrences,
tracking whether the previous character was a word character. -/
def replaceWordL (fuel : Nat) (prevWord : Bool) (l w rep : List Char) : List Char :=
  match fuel, l with
  | 0, l => l
  | _ + 1, [] => []
  | f + 1, c :: t =>
    if ¬ prevWord ∧ listPre w (c :: t) ∧
        (((c :: t).drop w.length).headD ' ' |> wordChar) = false then
      rep ++ replaceWordL f true ((c :: t).drop w.length) w rep
    else c :: replaceWordL f (wordChar c) t w rep

/-- Whole-word substitution `re.sub(rf"\b{w}\b", rep, s)` from
`app/utils.py::spoken_to_digits`. -/
def replaceWord (s w rep : String) : String :=
  String.mk (replaceWordL s.data.length false s.data w.data rep.data)

/-- Collapse whitespace runs to single spaces, `re.sub(r"\s+", " ", s)`;
the flag records whether the previous character was whitespace. -/
def collapseWsAux : Bool → List Char → List Char
  | _, [] => []
  | inWs, c :: t =>
    if wsb c then
      if inWs then collapseWsAux true t else ' ' :: collapseWsAux true t
    else c :: collapseWsAux false t

/-- `re.sub(r"\s+", " ", s)` from `app/utils.py::spoken_to_digits`. -/
def collapseWs (l : List Char) : List Char := collapseWsAux false l

/-- The digit-word table of `app/utils.py::_DIGIT_WORDS`, in source order. -/
def digitWords : List (String × String) :=
  [("zero", "0"), ("oh", "0"), ("o", "0"),
   ("one", "1"), ("two", "2"), ("three", "3"), ("four", "4"),
   ("five", "5"), ("six", "6"), ("seven", "7"), ("eight", "8"), ("nine", "9")]

/-- Embedding of `app/utils.py::spoken_to_digits`. -/
def spoken_to_digits (text : String) : String :=
  let s := " " ++ lowerStr text ++ " "
  let s := digitWords.foldl (fun acc p => replaceWord acc p.1 p.2) s
  let s := pyReplace (pyReplace (pyReplace (pyReplace s "dash" "") "-" " ") "." " ") "," " "
  pyStrip (String.mk (collapseWs s.data))

/-- Modelled from the spec: `normalize_phone` is imported by the engine from
`app.utils` but absent from the sources. Per §4.3 the phone validator does
spoken-digit normalization to a 10-digit number; this mirrors the in-repo
variant `app/utils.py::extract_phone` (last ten digits when more are given). -/
def normalize_phone (text : String) : Option String :=
  if text = "" then none
  else
    let t := spoken_to_digits text
    let digits := t.data.filter Char.isDigit
    if digits.length ≥ 10 then some (String.mk (digits.drop (digits.length - 10)))
    else none

/-- The affirmative vocabulary `app/utils.py::YES_SET`. -/
def yesWords : List String :=
  ["yes", "yeah", "yep", "correct", "right", "that is right", "affirmative",
   "sure", "ok", "okay"]

/-- The negative vocabulary `app/utils.py::NO_SET`. -/
def noWords : List String :=
  ["no", "nope", "incorrect", "wrong", "nah", "negative", "not correct"]

/-- Embedding of `app/utils.py::yes_no` (substring match against the two
vocabularies, affirmative checked first). -/
def yes_no (t : String) : Option Bool :=
  let s := lowerStr (pyStrip t)
  if s = "" then none
  else if yesWords.any (fun w => containsSub s w) then some true
  else if noWords.any (fun w => containsSub s w) then some false
  else none

/-- Decimal digits of a string interpreted as a natural number,
Python `int(dstr)` for a non-empty all-digit string. -/
def natOfDigits (l : List Char) : Nat :=
  l.foldl (fun a c => a * 10 + (c.toNat - 48)) 0

/-- Group a reversed digit list in threes, for thousands separators. -/
def groupThrees : List Char → List (List Char)
  | [] => []
  | [a] => [[a]]
  | [a, b] => [[a, b]]
  | [a, b, c] => [[a, b, c]]
  | a :: b :: c :: rest => [a, b, c] :: groupThrees rest

/-- Python `f"{n:,}"`: decimal rendering with comma thousands separators. -/
def formatComma (n : Nat) : String :=
  let ds := (toString n).data
  String.mk (List.intercalate [','] ((groupThrees ds.reverse).map List.reverse).reverse)

/-- Characters admitted by the `[\d,\.]` class of the `k`-suffix regex in
`app/utils.py::extract_amount`. -/
def amtKChar (c : Char) : Bool := c.isDigit ∨ c = ',' ∨ c = '.'

/-- Characters admitted by the `[\d,]` class of the plain-number regex in
`app/utils.py::extract_amount`. -/
def amtMChar (c : Char) : Bool := c.isDigit ∨ c = ','

/-- Leftmost match of `(\d[\d,\.]*)\s*k\b` (the first regex of
`app/utils.py::extract_amount`), returning the captured group. The
character classes of the pattern are pairwise disjoint, so greedy maximal
munch needs no backtracking. -/
def kSearchAmount : List Char → Option (List Char)
  | [] => none
  | c :: t =>
    if c.isDigit then
      let run := t.takeWhile amtKChar
      let rest := (t.drop run.length).dropWhile wsb
      match rest with
      | 'k' :: r =>
        if (r.headD ' ' |> wordChar) = false then some (c :: run)
        else kSearchAmount t
      | _ => kSearchAmount t
    else kSearchAmount t

/-- Leftmost match of `\$?\s*([\d,]{1,9})(\.\d+)?` (the second regex of
`app/utils.py::extract_amount`): the captured group always starts at the
first digit-or-comma character and takes up to nine of them. -/
def mSearchAmount : List Char → Option (List Char)
  | [] => none
  | c :: t =>
    if amtMChar c then some ((c :: t).takeWhile amtMChar |>.take 9)
    else mSearchAmount t

/-- The number-word alternatives of the third regex of
`app/utils.py::extract_amount`; only `one` carries a leading `\b`. -/
def amountWords : List (String × Bool) :=
  [("one", true), ("two", false), ("three", false), ("four", false),
   ("five", false), ("six", false), ("seven", false), ("eight", false),
   ("nine", false), ("ten", false)]

/-- Continuation `\s+(thousand|grand)\b` after a matched number word. -/
def wordAmountTail (rest : List Char) : Bool :=
  let sp := rest.takeWhile wsb
  if sp.isEmpty then false
  else
    let r2 := rest.drop sp.length
    (listPre "thousand".data r2 ∧ ((r2.drop 8).headD ' ' |> wordChar) = false) ∨
    (listPre "grand".data r2 ∧ ((r2.drop 5).headD ' ' |> wordChar) = false)

/-- Leftmost match of `(\bone|two|...|ten)\s+(thousand|grand)\b`, returning
the matched number word. -/
def wSearchAmount (prevWord : Bool) : List Char → Option String
  | [] => none
  | c :: t =>
    match amountWords.find? (fun p =>
        (¬ p.2 ∨ ¬ prevWord) ∧ listPre p.1.data (c :: t) ∧
        wordAmountTail ((c :: t).drop p.1.data.length)) with
    | some p => some p.1
    | none => wSearchAmount (wordChar c) t

/-- The number-word values of `app/utils.py::extract_amount`. -/
def amountWordValue (w : String) : Nat :=
  match w with
  | "one" => 1 | "two" => 2 | "three" => 3 | "four" => 4 | "five" => 5
  | "six" => 6 | "seven" => 7 | "eight" => 8 | "nine" => 9 | "ten" => 10
  | _ => 0

/-- Python `float` on the comma-stripped `k`-group (a digit followed by
digits and dots): integer part, fractional numerator and denominator, or
`none` when `float` would raise (more than one dot). -/
def parsePyFloat (l : List Char) : Option (Nat × Nat × Nat) :=
  let ip := l.takeWhile Char.isDigit
  let rest := l.drop ip.length
  match rest with
  | [] => some (natOfDigits ip, 0, 1)
  | '.' :: fr =>
    if fr.all Char.isDigit then
      some (natOfDigits ip, natOfDigits fr, 10 ^ fr.length)
    else none
  | _ => none

/-- Embedding of `app/utils.py::extract_amount`. A `.error` result marks a
raised `ValueError`: `int("")` when the `[\d,]{1,9}` group matched only
commas, or `float` on a group with several dots. -/
def extract_amount (text : String) : Except Unit (Option String) :=
  let s := lowerStr text
  match kSearchAmount s.data with
  | some g =>
    match parsePyFloat (g.filter (fun c => c ≠ ',')) with
    | some (ip, fn, fd) => .ok (some ("$" ++ formatComma (ip * 1000 + fn * 1000 / fd)))
    | none => .error ()
  | none =>
  match mSearchAmount s.data with
  | some g =>
    let ds := g.filter (fun c => c ≠ ',')
    if ds.isEmpty then .error ()
    else .ok (some ("$" ++ formatComma (natOfDigits ds)))
  | none =>
  match wSearchAmount false s.data with
  | some w => .ok (some ("$" ++ formatComma (amountWordValue w * 1000)))
  | none => .ok none

/-- Modelled from the spec: `extract_amount_usd` is imported by the engine
from `app.utils` but absent from the sources. Per §2/§4.3 the currency
validator is a pure, total function producing a canonical
`"$"`-and-commas string or nothing; modelled as `extract_amount` with the
exceptional parse yielding no value. -/
def extract_amount_usd (text : String) : Option String :=
  match extract_amount text with
  | .ok r => r
  | .error _ => none

/-- Python truthiness of an optional string (`None` and `""` are falsy). -/
def optTruthy : Option String → Bool
  | none => false
  | some s => ¬ s.isEmpty

/-- Python `a or b` for an optional string against a string default. -/
def strOr (a : Option String) (b : String) : String :=
  if optTruthy a then a.getD "" else b

/-- Python `a or b` on two optional strings (truthiness-based). -/
def pyOrOpt (a b : Option String) : Option String :=
  if optTruthy a then a else b

/-- Rendering of an optional string inside a Python f-string
(`None` prints as `"None"`). -/
def fmtOpt : Option String → String
  | none => "None"
  | some s => s

/-- Python `sep.join(parts)`. -/
def joinWith (sep : String) : List String → String
  | [] => ""
  | [x] => x
  | x :: rest => x ++ sep ++ joinWith sep rest

/-- Modelled from the spec: `map_correction_field` is imported by the engine
from `app.utils` but absent from the sources. Per §4.5 (Correction), free
text is matched first-match-wins against a fixed category→keyword table over
name/phone/email/address/attorney/case/incident-date/funding-type/
funding-amount; `amount` is tested before the generic funding keywords so
that "funding amount" is reachable. -/
def map_correction_field (text : String) : Option String :=
  let t := lowerStr (pyStrip text)
  if t = "" then none
  else if containsSub t "name" then some "name"
  else if containsSub t "phone" ∨ containsSub t "number" then some "phone"
  else if containsSub t "email" ∨ containsSub t "mail" then some "email"
  else if containsSub t "address" then some "address"
  else if containsSub t "attorney" ∨ containsSub t "lawyer" then some "attorney"
  else if containsSub t "case" ∨ containsSub t "injury" then some "case"
  else if containsSub t "incident" ∨ containsSub t "date" then some "incident_date"
  else if containsSub t "amount" then some "funding_amount"
  else if containsSub t "funding" ∨ containsSub t "type" then some "funding_type"
  else none

/-- The handoff vocabulary checked in the SUMMARY branch of
`app/main.py::orchestrate` (line 527). -/
def wantsHuman (t : String) : Bool :=
  containsSub t "human" ∨ containsSub t "agent" ∨ containsSub t "representative" ∨
  containsSub t "someone" ∨ containsSub t "live person"

/-- The 50 two-letter state codes of `app/utils.py::extract_state`. -/
def stateCodes : List String :=
  ["AL","AK","AZ","AR","CA","CO","CT","DE","FL","GA","HI","ID","IL","IN","IA",
   "KS","KY","LA","ME","MD","MA","MI","MN","MS","MO","MT","NE","NV","NH","NJ",
   "NM","NY","NC","ND","OH","OK","OR","PA","RI","SC","SD","TN","TX","UT","VT",
   "VA","WA","WV","WI","WY"]

/-- ASCII upper-casing of one character. -/
def upperChar (c : Char) : Char :=
  if 'a' ≤ c ∧ c ≤ 'z' then Char.ofNat (c.toNat - 32) else c

/-- Leftmost `\b`-bounded case-insensitive two-letter state-code scan. -/
def stateScan (prevWord : Bool) : List Char → Option String
  | [] => none
  | c :: t =>
    match stateCodes.find? (fun code =>
        ¬ prevWord ∧ listPre code.data ((c :: t).map upperChar) ∧
        (((c :: t).drop 2).headD ' ' |> wordChar) = false) with
    | some code => some code
    | none => stateScan (wordChar c) t

/-- Modelled from the spec: `infer_state_from_address` is imported by the
engine from `app.utils` but absent from the sources. Per §4.3 the US-state
validator is a two-letter token scan against the valid set; this mirrors the
in-repo variant `app/utils.py::extract_state` (case-insensitive, word
boundaries, uppercase result). -/
def infer_state_from_address (text : String) : Option String :=
  stateScan false text.data

-- ===== prompts (app/prompts.py) =====

/-- `PROMPTS["INTRO"]`. -/
def PROMPTS_INTRO : String :=
  "Hi, I’m Anna with Oasis — your intake assistant for pre-settlement funding. I’ll collect a few details to start your application and confirm them with you."

/-- `PROMPTS["ASK_NAME"]`. -/
def PROMPTS_ASK_NAME : String :=
  "To start, please say your full legal name as on your ID — for example: “Joe Smith.”"

/-- `PROMPTS["ASK_PHONE"]`. -/
def PROMPTS_ASK_PHONE : String := "What’s the best phone number to reach you?"

/-- `PROMPTS["ASK_EMAIL"]`. -/
def PROMPTS_ASK_EMAIL : String := "What’s the best email address for updates?"

/-- `PROMPTS["ASK_ADDRESS"]`. -/
def PROMPTS_ASK_ADDRESS : String :=
  "What’s your residential address including city, state, and ZIP? You can say “skip” if you prefer not to share."

/-- `PROMPTS["ASK_ATTORNEY_YN"]`. -/
def PROMPTS_ASK_ATTORNEY_YN : String :=
  "Do you currently have an attorney representing you? Please say yes or no."

/-- `PROMPTS["ASK_ATTORNEY_INFO"]`. -/
def PROMPTS_ASK_ATTORNEY_INFO : String :=
  "Please share the attorney’s name, phone number, the law firm, and the firm’s address."

/-- `PROMPTS["ASK_CASE_TYPE"]`. -/
def PROMPTS_ASK_CASE_TYPE : String :=
  "Which best describes your case: auto accident, slip and fall, or dog bite?"

/-- `PROMPTS["ASK_INJURY_DETAILS"]`. -/
def PROMPTS_ASK_INJURY_DETAILS : String :=
  "I’m sorry you’re going through this. Briefly, what happened?"

/-- `PROMPTS["ASK_INCIDENT_DATE"]`. -/
def PROMPTS_ASK_INCIDENT_DATE : String :=
  "On what date did the incident occur? Please say the month, day, and year."

/-- `PROMPTS["ASK_FUNDING_TYPE"]`. -/
def PROMPTS_ASK_FUNDING_TYPE : String :=
  "Are you looking for fresh funding, or to extend or top up existing funding?"

/-- `PROMPTS["ASK_FUNDING_AMOUNT"]`. -/
def PROMPTS_ASK_FUNDING_AMOUNT : String :=
  "About how much funding are you looking for, in U.S. dollars?"

/-- `PROMPTS["ADDRESS_SKIPPED"]`. -/
def PROMPTS_ADDRESS_SKIPPED : String :=
  "No problem — I’ll note that the address was not provided."

/-- `PROMPTS["ADDRESS_VERIFY_FAIL"]`. -/
def PROMPTS_ADDRESS_VERIFY_FAIL : String :=
  "Thanks. I couldn’t verify that address. I’ll note it and a specialist will double-check."

/-- `PROMPTS["STATE_ELIGIBLE"].format(state=st)`. -/
def stateEligibleMsg (st : String) : String :=
  "Based on our info, Oasis serves clients in " ++ st ++ "."

/-- `PROMPTS["STATE_INELIGIBLE"].format(state=st)`. -/
def stateIneligibleMsg (st : String) : String :=
  "It looks like Oasis does not serve clients in " ++ st ++ ". A specialist can confirm."

/-- `PROMPTS["SUMMARY_INTRO"]`. -/
def PROMPTS_SUMMARY_INTRO : String := "Let me repeat what I captured."

/-- `PROMPTS["SUMMARY_CONFIRM"]`. -/
def PROMPTS_SUMMARY_CONFIRM : String := "Is everything correct?"

/-- `PROMPTS["HANDOFF"]`. -/
def PROMPTS_HANDOFF : String :=
  "Okay, I’ll connect you to a specialist now and share the information I’ve captured."

/-- `PROMPTS["DONE"]`. -/
def PROMPTS_DONE : String := "Thank you. A case specialist will reach out shortly."

/-- `PROMPTS["CORRECT_SELECT"]`. -/
def PROMPTS_CORRECT_SELECT : String :=
  "Which information would you like to change? You can say: name, phone, email, address, attorney, case, incident date, funding type, or funding amount."

/-- `PROMPTS["CORRECT_ACK"]`. -/
def PROMPTS_CORRECT_ACK : String := "Got it — let’s update that."

/-- Modelled from the spec: the key `EXISTING` is read by the engine but
absent from `app/prompts.py` (prompt wording is out of scope per §1); an
offer to continue, modify, or start fresh, per §4.1 Entry/resume. -/
def PROMPTS_EXISTING : String :=
  "I found an application on file for this number. Would you like to continue the pending one, modify it, or start a new application?"

/-- Modelled from the spec: the key `REPROMPT_SHORT` is read by the engine
but absent from `app/prompts.py`; a short preamble prepended when the same
prompt is re-issued. -/
def PROMPTS_REPROMPT_SHORT : String := "Sorry, just to check — "

/-- Modelled from the spec: the key `ATTY_VERIFY_FAIL` is read by the engine
but absent from `app/prompts.py`; a note that attorney verification did not
succeed, which never blocks progression (§4.1 step 4). -/
def PROMPTS_ATTY_VERIFY_FAIL : String :=
  "I couldn’t verify that attorney information. I’ll note it and a specialist will double-check."

/-- Modelled from the spec: the key `ASK_LAST_NAME` is read by the engine
(formatted with the captured first token) but absent from
`app/prompts.py`. -/
def promptAskLastName (first : String) : String :=
  "Thanks, " ++ first ++ ". And what’s your last name?"

/-- Modelled from the spec: the key `ASK_PREFERRED_PHONE_CONFIRM` is read by
the engine (formatted with the caller number) but absent from
`app/prompts.py`; the "same as caller number" confirmation of §4.3. -/
def promptAskPreferredPhone (caller : String) : String :=
  "Is the number you’re calling from, " ++ caller ++ ", the best number to reach you?"

-- ===== data model (app/models.py, app/db.py, module-level state) =====

/-- Metadata attached to an assistant transcript turn
(`app/main.py::respond`, the `extra` argument of `_append_turn`). -/
structure TurnMeta where
  completed : Bool
  handoff : Bool
  citations : List Nat
deriving Repr, DecidableEq

/-- One transcript record built by `app/main.py::_append_turn`. -/
structure Turn where
  ts : Nat
  role : String
  text : String
  stage : String
  meta : Option TurnMeta
deriving Repr, DecidableEq

/-- `MAX_RETRIES_PER_STAGE` from `app/main.py`. -/
def MAX_RETRIES_PER_STAGE : Nat := 2

/-- `TRANSCRIPT_MAX_TURNS` from `app/main.py`. -/
def TRANSCRIPT_MAX_TURNS : Nat := 300

/-- `app/models.py::SessionState`. Fields unused by the engine
(`confidences`, `extra`, `updated_at`) carry their defaults. -/
structure SessionState where
  session_id : String
  stage : String := "ENTRY"
  completed : Bool := false
  caller_number : Option String := none
  full_name : Option String := none
  phone : Option String := none
  best_phone : Option String := none
  email : Option String := none
  address : Option String := none
  address_norm : Option String := none
  address_verified : Bool := false
  state : Option String := none
  state_eligible : Option String := none
  state_eligibility_note : Option String := none
  has_attorney : Option Bool := none
  attorney_name : Option String := none
  attorney_phone : Option String := none
  law_firm : Option String := none
  law_firm_address : Option String := none
  attorney_verified : Bool := false
  injury_type : Option String := none
  injury_details : Option String := none
  incident_date : Option String := none
  funding_type : Option String := none
  funding_amount : Option String := none
  confidences : List (String × Nat) := []
  retries : List (String × Nat) := []
  last_prompt : Option String := none
  summary_read : Bool := false
  awaiting_confirmation : Bool := false
  correction_mode : Bool := false
  correction_target : Option String := none
  awaiting_confirm_field : Option String := none
  updated_at : Nat := 0
  listen_timeout_sec : Nat := 7
  qna_offered : Bool := false
  qna_remaining : Nat := 2
  extra : List (String × String) := []
deriving Repr, DecidableEq

/-- `SessionState(session_id=sid, caller_number=caller)`. -/
def SessionState.init (sid : String) (caller : Option String := none) : SessionState :=
  { session_id := sid, caller_number := caller }

/-- The field snapshot of `app/models.py::SessionState.to_updates`. -/
structure Updates where
  full_name : Option String
  phone : Option String
  best_phone : Option String
  email : Option String
  address : Option String
  address_norm : Option String
  address_verified : Bool
  state : Option String
  state_eligible : Option String
  state_eligibility_note : Option String
  has_attorney : Option Bool
  attorney_name : Option String
  attorney_phone : Option String
  law_firm : Option String
  law_firm_address : Option String
  attorney_verified : Bool
  injury_type : Option String
  injury_details : Option String
  incident_date : Option String
  funding_type : Option String
  funding_amount : Option String
deriving Repr, DecidableEq

/-- Embedding of `SessionState.to_updates` (`best_phone` falls back to
`phone` via `or`-truthiness). -/
def SessionState.to_updates (s : SessionState) : Updates :=
  { full_name := s.full_name, phone := s.phone,
    best_phone := pyOrOpt s.best_phone s.phone, email := s.email,
    address := s.address, address_norm := s.address_norm,
    address_verified := s.address_verified, state := s.state,
    state_eligible := s.state_eligible,
    state_eligibility_note := s.state_eligibility_note,
    has_attorney := s.has_attorney, attorney_name := s.attorney_name,
    attorney_phone := s.attorney_phone, law_firm := s.law_firm,
    law_firm_address := s.law_firm_address,
    attorney_verified := s.attorney_verified, injury_type := s.injury_type,
    injury_details := s.injury_details, incident_date := s.incident_date,
    funding_type := s.funding_type, funding_amount := s.funding_amount }

/-- `app/models.py::OrchestrateRequest`. -/
structure OrchestrateRequest where
  session_id : String
  last_user_utterance : Option String := some ""
  caller_number : Option String := none
deriving Repr, DecidableEq

/-- `app/models.py::OrchestrateResponse`. `confidence` is the rational value
of the float field (always `0.7` in `respond`). -/
structure OrchestrateResponse where
  updates : Updates
  next_prompt : String
  completed : Bool := false
  handoff : Bool := false
  citations : List Nat := []
  confidence : ℚ := 7 / 10
  listen_timeout_sec : Nat := 7
deriving Repr, DecidableEq

/-- A row of the `applications` table (`app/db.py::Application`). -/
structure AppRecord where
  id : Nat
  session_id : String
  status : String := "pending"
  caller_number : Option String := none
  full_name : Option String := none
  best_phone : Option String := none
  email : Option String := none
  address : Option String := none
  address_norm : Option String := none
  address_verified : Bool := false
  address_skipped : Bool := false
  state : Option String := none
  state_eligible : Option String := none
  state_eligibility_note : Option String := none
  has_attorney : Option Bool := none
  attorney_name : Option String := none
  attorney_phone : Option String := none
  law_firm : Option String := none
  law_firm_address : Option String := none
  attorney_verified : Option Bool := none
  injury_type : Option String := none
  injury_details : Option String := none
  incident_date : Option String := none
  funding_type : Option String := none
  funding_amount : Option String := none
  created_at : Nat := 0
  updated_at : Nat := 0
deriving Repr, DecidableEq

/-- Association-list lookup (the read of a Python dict keyed by strings). -/
def alookup {α : Type} (l : List (String × α)) (k : String) : Option α :=
  (l.find? (fun p => p.1 = k)).map Prod.snd

/-- Association-list write (the update of a Python dict keyed by strings). -/
def aset {α : Type} : List (String × α) → String → α → List (String × α)
  | [], k, v => [(k, v)]
  | p :: t, k, v => if p.1 = k then (k, v) :: t else p :: aset t k v

/-- Association-list delete (`dict.pop(key, None)`). -/
def adel {α : Type} (l : List (String × α)) (k : String) : List (String × α) :=
  l.filter (fun p => ¬ p.1 = k)

/-- A ranked snippet returned by the knowledge-base collaborator
(`app/kb_client.py::kb_search`; only the `text` key is read). -/
structure KBHit where
  text : String
deriving Repr, DecidableEq

/-- The module-level mutable state of `app/main.py` (`SESSIONS`,
`TRANSCRIPTS`) together with the `applications` table and the clock
(`_now_ms`, frozen for the duration of one turn). -/
structure World where
  sessions : List (String × SessionState) := []
  transcripts : List (String × List Turn) := []
  db : List AppRecord := []
  time : Nat := 0
deriving Repr, DecidableEq

/-- The awaited external collaborators of one turn:
`app/tools.py::verify_address`, `app/tools.py::verify_attorney`,
`app/kb_client.py::kb_search` (an `.error` result is a raised exception,
caught by the engine), and `parse_incident_date`. The last is modelled from
the spec: it is imported by the engine but absent from the sources, and per
§4.3 it is a natural-language date parse with today/yesterday shortcuts —
inherently clock-dependent, hence part of the oracle. -/
structure Oracle where
  verifyAddress : String → Bool × Option String
  verifyAttorney : Option String → Option String → Option String → Option String → Bool
  kbSearch : String → Nat → Except Unit (List KBHit)
  parseIncidentDate : String → Option String

/-- `app/db.py::get_latest_by_caller` (filter by caller, newest
`updated_at` first, ties by largest `id`). -/
def get_latest_by_caller (db : List AppRecord) (caller : Option String) : Option AppRecord :=
  if ¬ optTruthy caller then none
  else
    (db.filter (fun r => r.caller_number = caller)).foldl
      (fun best r =>
        match best with
        | none => some r
        | some b =>
          if r.updated_at > b.updated_at ∨ (r.updated_at = b.updated_at ∧ r.id > b.id)
          then some r else some b)
      none

/-- The field-copying body of `app/db.py::upsert_application_from_state`.
`SessionState` has no `address_skipped` attribute, so the `getattr` default
keeps the row value; `best_phone` falls back through `phone` and then the
existing row value by `or`-truthiness. -/
def applyStateToRow (row : AppRecord) (s : SessionState) (now : Nat) : AppRecord :=
  { row with
    status := if s.completed then "completed" else "pending",
    caller_number := s.caller_number,
    full_name := s.full_name,
    best_phone := pyOrOpt (pyOrOpt s.best_phone s.phone) row.best_phone,
    email := s.email,
    address := s.address,
    address_norm := s.address_norm,
    address_verified := s.address_verified,
    state := s.state,
    state_eligible := s.state_eligible,
    state_eligibility_note := s.state_eligibility_note,
    has_attorney := s.has_attorney,
    attorney_name := s.attorney_name,
    attorney_phone := s.attorney_phone,
    law_firm := s.law_firm,
    law_firm_address := s.law_firm_address,
    attorney_verified := some s.attorney_verified,
    injury_type := s.injury_type,
    injury_details := s.injury_details,
    incident_date := s.incident_date,
    funding_type := s.funding_type,
    funding_amount := s.funding_amount,
    updated_at := now }

/-- `app/db.py::upsert_application_from_state`: update the row keyed by the
session id, or insert a fresh one (fresh primary key, `created_at` now). -/
def upsert_application_from_state (db : List AppRecord) (s : SessionState) (now : Nat) : List AppRecord :=
  match db.find? (fun r => r.session_id = s.session_id) with
  | none =>
    db ++ [applyStateToRow
      { id := db.length + 1, session_id := s.session_id, created_at := now } s now]
  | some _ =>
    db.map (fun r => if r.session_id = s.session_id then applyStateToRow r s now else r)

/-- List part of `app/main.py::_append_turn`: append, then evict the oldest
entries beyond `TRANSCRIPT_MAX_TURNS`. -/
def appendTurnL (l : List Turn) (t : Turn) : List Turn :=
  let l2 := l ++ [t]
  if l2.length > TRANSCRIPT_MAX_TURNS then l2.drop (l2.length - TRANSCRIPT_MAX_TURNS) else l2

/-- The record literal built inside `app/main.py::_append_turn`. -/
def mkTurn (ts : Nat) (role text stage : String) (meta : Option TurnMeta) : Turn :=
  { ts := ts, role := role, text := text, stage := stage, meta := meta }

/-- `app/main.py::_append_turn` acting on the transcript map. -/
def appendTurnW (w : World) (sid : String) (t : Turn) : World :=
  let tl := appendTurnL ((alookup w.transcripts sid).getD []) t
  { w with transcripts := aset w.transcripts sid tl }

/-- `app/main.py::next_prompt_text`. -/
def next_prompt_text (s : SessionState) (text : String) : String :=
  if optTruthy s.last_prompt ∧ pyStrip text = pyStrip (s.last_prompt.getD "") then
    PROMPTS_REPROMPT_SHORT ++ text
  else text

/-- `app/main.py::bump_retry`: increment the per-key counter and report
whether it now exceeds `MAX_RETRIES_PER_STAGE`. -/
def bump_retry (s : SessionState) (key : String) : SessionState × Bool :=
  let n := (alookup s.retries key).getD 0 + 1
  ({ s with retries := aset s.retries key n }, decide (n > MAX_RETRIES_PER_STAGE))

/-- `app/main.py::respond`: append the assistant turn, store the session
(with `last_prompt` updated), upsert the application record, and build the
response (prompt capped at 180 characters, constant confidence and listen
timeout). -/
def respondW (w : World) (s : SessionState) (text : String) (completed handoff : Bool) :
    World × OrchestrateResponse :=
  let w1 := appendTurnW w s.session_id
    (mkTurn w.time "ai" text s.stage (some ⟨completed, handoff, []⟩))
  let s2 := { s with last_prompt := some text }
  ({ w1 with sessions := aset w1.sessions s2.session_id s2,
             db := upsert_application_from_state w1.db s2 w1.time },
   { updates := s2.to_updates, next_prompt := String.mk (text.data.take 180),
     completed := completed, handoff := handoff, citations := [],
     confidence := 7 / 10, listen_timeout_sec := 7 })

/-- The recurring correction-mode epilogue
`state.stage="SUMMARY"; state.summary_read=False;
state.awaiting_confirmation=False` of `app/main.py::orchestrate`. -/
def toSummary (s : SessionState) : SessionState :=
  { s with stage := "SUMMARY", summary_read := false, awaiting_confirmation := false }

/-- Modelled from the spec: `next_missing_stage` is imported by the engine
from `app.utils` but absent from the sources. Per §4.1/§8 Scenario F,
resuming continues at the first currently-missing field in the fixed
priority order name, phone, email, address, attorney-disclosure (+info if
yes), case type, case narrative, incident date, funding type, funding
amount. -/
def next_missing_stage (s : SessionState) : Option String :=
  if ¬ optTruthy s.full_name then some "ASK_NAME"
  else if ¬ (optTruthy s.best_phone ∨ optTruthy s.phone) then some "ASK_PHONE"
  else if ¬ optTruthy s.email then some "ASK_EMAIL"
  else if ¬ optTruthy s.address then some "ASK_ADDRESS"
  else if s.has_attorney = none then some "ATTORNEY_YN"
  else if s.has_attorney = some true ∧ ¬ optTruthy s.attorney_name then some "ATTORNEY_INFO"
  else if ¬ optTruthy s.injury_type then some "CASE_TYPE"
  else if ¬ optTruthy s.injury_details then some "INJURY_DETAILS"
  else if ¬ optTruthy s.incident_date then some "INCIDENT_DATE"
  else if ¬ optTruthy s.funding_type then some "FUNDING_TYPE"
  else if ¬ optTruthy s.funding_amount then some "FUNDING_AMOUNT"
  else none

/-- The `prompt_map` dict of the RESUME_CHOICE branch
(`app/main.py` lines 161-173; `.get(nxt, "")` on other keys). -/
def promptMapResume (nxt : String) : String :=
  if nxt = "ASK_NAME" then PROMPTS_ASK_NAME
  else if nxt = "ASK_PHONE" then PROMPTS_ASK_PHONE
  else if nxt = "ASK_EMAIL" then PROMPTS_ASK_EMAIL
  else if nxt = "ASK_ADDRESS" then PROMPTS_ASK_ADDRESS
  else if nxt = "ATTORNEY_YN" then PROMPTS_ASK_ATTORNEY_YN
  else if nxt = "ATTORNEY_INFO" then PROMPTS_ASK_ATTORNEY_INFO
  else if nxt = "CASE_TYPE" then PROMPTS_ASK_CASE_TYPE
  else if nxt = "INJURY_DETAILS" then PROMPTS_ASK_INJURY_DETAILS
  else if nxt = "INCIDENT_DATE" then PROMPTS_ASK_INCIDENT_DATE
  else if nxt = "FUNDING_TYPE" then PROMPTS_ASK_FUNDING_TYPE
  else if nxt = "FUNDING_AMOUNT" then PROMPTS_ASK_FUNDING_AMOUNT
  else ""

/-- The repeated `"PREFERRED_PHONE" if state.caller_number else "ASK_PHONE"`
stage choice of `app/main.py::orchestrate`. -/
def phoneStageOf (s : SessionState) : String :=
  if optTruthy s.caller_number then "PREFERRED_PHONE" else "ASK_PHONE"

/-- The matching prompt choice (`ASK_PREFERRED_PHONE_CONFIRM` formatted with
the caller number, else `ASK_PHONE`). -/
def phonePromptOf (s : SessionState) : String :=
  if optTruthy s.caller_number then promptAskPreferredPhone (fmtOpt s.caller_number)
  else PROMPTS_ASK_PHONE

/-- The summary read-back of `app/main.py::orchestrate` (lines 532-555):
every non-empty field once, in the fixed category order. -/
def buildSummary (s : SessionState) : String :=
  let parts : List String :=
    (if optTruthy s.full_name then ["Name: " ++ fmtOpt s.full_name] else []) ++
    (if optTruthy s.best_phone ∨ optTruthy s.phone then
       ["Phone: " ++ fmtOpt (pyOrOpt s.best_phone s.phone)] else []) ++
    (if optTruthy s.email then ["Email: " ++ fmtOpt s.email] else []) ++
    (if optTruthy s.address then
       ["Address: " ++ fmtOpt (pyOrOpt s.address_norm s.address)] else []) ++
    (if optTruthy s.state then
       ["State: " ++ fmtOpt s.state ++ " (" ++ strOr s.state_eligible "unknown" ++ ")"]
     else []) ++
    (match s.has_attorney with
     | none => []
     | some true =>
       let att :=
         (if optTruthy s.attorney_name then [fmtOpt s.attorney_name] else []) ++
         (if optTruthy s.law_firm then [fmtOpt s.law_firm] else []) ++
         (if optTruthy s.attorney_phone then [fmtOpt s.attorney_phone] else []) ++
         (if optTruthy s.law_firm_address then [fmtOpt s.law_firm_address] else [])
       if att.isEmpty then ["Attorney: provided"] else ["Attorney: " ++ joinWith ", " att]
     | some false => ["Attorney: none"]) ++
    (if optTruthy s.injury_type then ["Case: " ++ fmtOpt s.injury_type] else []) ++
    (if optTruthy s.injury_details then ["Details: " ++ fmtOpt s.injury_details] else []) ++
    (if optTruthy s.incident_date then ["Incident date: " ++ fmtOpt s.incident_date] else []) ++
    (if optTruthy s.funding_type then ["Funding type: " ++ fmtOpt s.funding_type] else []) ++
    (if optTruthy s.funding_amount then ["Funding amount: " ++ fmtOpt s.funding_amount] else [])
  PROMPTS_SUMMARY_INTRO ++ " " ++ joinWith ". " parts ++ ". " ++ PROMPTS_SUMMARY_CONFIRM

/-- The CORRECT_SELECT no-match path (`app/main.py` lines 610-614): bump the
retry counter and re-prompt — with a field-list hint once the counter
exceeds the maximum — while staying in CORRECT_SELECT. -/
def correctSelectRetry (w : World) (s : SessionState) : World × OrchestrateResponse :=
  let r := bump_retry s "CORRECT_SELECT"
  if r.2 then
    respondW w r.1 (next_prompt_text r.1 "You can say: name, phone, email, address, attorney, case, incident date, funding type, or funding amount.") false false
  else
    respondW w r.1 (next_prompt_text r.1 PROMPTS_CORRECT_SELECT) false false

/-- The nine-way target dispatch of the CORRECT_SELECT branch
(`app/main.py` lines 591-609), entered with `correction_target` and
`correction_mode` already set; an unrecognized target falls through to the
retry path, as in the source. -/
def correctTargetDispatch (w : World) (s : SessionState) (target : String) :
    World × OrchestrateResponse :=
  if target = "name" then
    let s := { s with stage := "ASK_NAME" }
    respondW w s (next_prompt_text s (PROMPTS_CORRECT_ACK ++ " " ++ PROMPTS_ASK_NAME)) false false
  else if target = "phone" then
    let s := { s with stage := phoneStageOf s }
    respondW w s (next_prompt_text s (PROMPTS_CORRECT_ACK ++ " " ++ phonePromptOf s)) false false
  else if target = "email" then
    let s := { s with stage := "ASK_EMAIL" }
    respondW w s (next_prompt_text s (PROMPTS_CORRECT_ACK ++ " " ++ PROMPTS_ASK_EMAIL)) false false
  else if target = "address" then
    let s := { s with stage := "ASK_ADDRESS" }
    respondW w s (next_prompt_text s (PROMPTS_CORRECT_ACK ++ " " ++ PROMPTS_ASK_ADDRESS)) false false
  else if target = "attorney" then
    let s := { s with stage := "ATTORNEY_YN" }
    respondW w s (next_prompt_text s (PROMPTS_CORRECT_ACK ++ " " ++ PROMPTS_ASK_ATTORNEY_YN)) false false
  else if target = "case" then
    let s := { s with stage := "CASE_TYPE" }
    respondW w s (next_prompt_text s (PROMPTS_CORRECT_ACK ++ " " ++ PROMPTS_ASK_CASE_TYPE)) false false
  else if target = "incident_date" then
    let s := { s with stage := "INCIDENT_DATE" }
    respondW w s (next_prompt_text s (PROMPTS_CORRECT_ACK ++ " " ++ PROMPTS_ASK_INCIDENT_DATE)) false false
  else if target = "funding_type" then
    let s := { s with stage := "FUNDING_TYPE" }
    respondW w s (next_prompt_text s (PROMPTS_CORRECT_ACK ++ " " ++ PROMPTS_ASK_FUNDING_TYPE)) false false
  else if target = "funding_amount" then
    let s := { s with stage := "FUNDING_AMOUNT" }
    respondW w s (next_prompt_text s (PROMPTS_CORRECT_ACK ++ " " ++ PROMPTS_ASK_FUNDING_AMOUNT)) false false
  else correctSelectRetry w s

/-- The CORRECT_SELECT / DONE / fallback checks of
`app/main.py::orchestrate` (lines 586-623), guarded by the stage snapshot. -/
def tailRest (stage0 : String) (w : World) (s : SessionState) (utter : String) :
    World × OrchestrateResponse :=
  if stage0 = "CORRECT_SELECT" then
    match map_correction_field utter with
    | some target =>
      correctTargetDispatch w
        { s with correction_target := some target, correction_mode := true } target
    | none => correctSelectRetry w s
  else if stage0 = "DONE" then
    let s := { s with completed := true }
    respondW w s (next_prompt_text s PROMPTS_DONE) true false
  else
    respondW w s (next_prompt_text s "Could you say that again?") false false

/-- The SUMMARY block of `app/main.py::orchestrate` (lines 525-584) followed
by the remaining checks; when the SUMMARY block does not return
(`summary_read` true but `awaiting_confirmation` false), control falls
through to them, as in the source. -/
def handleTail (stage0 : String) (w : World) (s : SessionState) (utter : String) :
    World × OrchestrateResponse :=
  if stage0 = "SUMMARY" then
    if wantsHuman (lowerStr utter) then
      let s := { s with completed := false }
      respondW w s (next_prompt_text s PROMPTS_HANDOFF) false true
    else if ¬ s.summary_read then
      let summary := buildSummary s
      let s := { s with summary_read := true, awaiting_confirmation := true }
      respondW w s (next_prompt_text s summary) false false
    else if s.awaiting_confirmation then
      match yes_no utter with
      | some true =>
        let s := { s with completed := true, correction_mode := false,
                          correction_target := none, stage := "DONE" }
        respondW w s (next_prompt_text s PROMPTS_DONE) true false
      | some false =>
        let s := { s with correction_mode := true, correction_target := none,
                          summary_read := false, awaiting_confirmation := false,
                          stage := "CORRECT_SELECT" }
        respondW w s (next_prompt_text s PROMPTS_CORRECT_SELECT) false false
      | none =>
        let r := bump_retry s "SUMMARY_CONFIRM"
        if r.2 then
          let s := { r.1 with completed := true, stage := "DONE" }
          respondW w s (next_prompt_text s PROMPTS_DONE) true false
        else respondW w r.1 (next_prompt_text r.1 PROMPTS_SUMMARY_CONFIRM) false false
    else tailRest stage0 w s utter
  else tailRest stage0 w s utter

/-- The ENTRY branch (`app/main.py` lines 136-147). -/
def handleEntry (w : World) (s : SessionState) : World × OrchestrateResponse :=
  if optTruthy s.caller_number ∧ (get_latest_by_caller w.db s.caller_number).isSome then
    let s := { s with stage := "RESUME_CHOICE" }
    respondW w s (next_prompt_text s (PROMPTS_INTRO ++ " " ++ PROMPTS_EXISTING)) false false
  else
    let s := { s with stage := "GREETING" }
    respondW w s (next_prompt_text s PROMPTS_INTRO) false false

/-- The GREETING branch (`app/main.py` lines 149-152). -/
def handleGreeting (w : World) (s : SessionState) : World × OrchestrateResponse :=
  let s := { s with stage := "ASK_NAME" }
  respondW w s (next_prompt_text s PROMPTS_ASK_NAME) false false

/-- The RESUME_CHOICE branch (`app/main.py` lines 155-198). -/
def handleResumeChoice (w : World) (s : SessionState) (utter : String) :
    World × OrchestrateResponse :=
  let t := lowerStr utter
  if containsSub t "continue" ∨ containsSub t "pending" then
    match next_missing_stage s with
    | some nxt =>
      let s := { s with stage := nxt }
      respondW w s (next_prompt_text s ("Let’s pick up where we left off. " ++ promptMapResume nxt)) false false
    | none =>
      let s := toSummary s
      respondW w s (next_prompt_text s "Looks like we have everything. I’ll read back your details.") false false
  else if containsSub t "modify" ∨ containsSub t "update" ∨ containsSub t "edit" then
    let s := toSummary s
    respondW w s (next_prompt_text s "Okay, I’ll read back your details and we can make changes.") false false
  else if containsSub t "new" ∨ containsSub t "start" then
    let s2 := { SessionState.init s.session_id s.caller_number with stage := "ASK_NAME" }
    let w2 := { w with sessions := aset w.sessions s2.session_id s2 }
    respondW w2 s2 (next_prompt_text s2 "Starting a new application. What’s your full legal name?") false false
  else
    let r := bump_retry s "RESUME_CHOICE"
    if r.2 then
      let s := { r.1 with stage := "ASK_NAME" }
      respondW w s (next_prompt_text s "Let’s move ahead. What’s your full legal name?") false false
    else respondW w r.1 (next_prompt_text r.1 PROMPTS_EXISTING) false false

/-- The ASK_NAME branch (`app/main.py` lines 201-229): a single-token
utterance is stored and followed up in ASK_LAST_NAME. -/
def handleAskName (w : World) (s : SessionState) (utter : String) :
    World × OrchestrateResponse :=
  if utter ≠ "" then
    let parts := pySplit utter
    if parts.length = 1 then
      let s := { s with full_name := some (parts.headD ""), stage := "ASK_LAST_NAME" }
      respondW w s (next_prompt_text s (promptAskLastName (parts.headD ""))) false false
    else
      let s := { s with full_name := some utter }
      if s.correction_mode then
        let s := toSummary s
        respondW w s (next_prompt_text s "Thanks. I’ll read the updated details now.") false false
      else
        let s := { s with stage := phoneStageOf s }
        respondW w s (next_prompt_text s (phonePromptOf s)) false false
  else
    let r := bump_retry s "ASK_NAME"
    if r.2 then
      let s := { r.1 with stage := phoneStageOf r.1 }
      respondW w s (next_prompt_text s (phonePromptOf s)) false false
    else respondW w r.1 (next_prompt_text r.1 PROMPTS_ASK_NAME) false false

/-- The ASK_LAST_NAME branch (`app/main.py` lines 231-252): the follow-up
utterance is appended to the stored first token. -/
def handleAskLastName (w : World) (s : SessionState) (utter : String) :
    World × OrchestrateResponse :=
  if utter ≠ "" then
    let s := { s with full_name := some (pyStrip (fmtOpt s.full_name ++ " " ++ utter)) }
    if s.correction_mode then
      let s := toSummary s
      respondW w s (next_prompt_text s "Thanks. I’ll read the updated details now.") false false
    else
      let s := { s with stage := phoneStageOf s }
      respondW w s (next_prompt_text s (phonePromptOf s)) false false
  else
    let r := bump_retry s "ASK_LAST_NAME"
    if r.2 then
      let s := { r.1 with stage := phoneStageOf r.1 }
      respondW w s (next_prompt_text s (phonePromptOf s)) false false
    else respondW w r.1 (next_prompt_text r.1 (promptAskLastName (strOr r.1.full_name ""))) false false

/-- The PREFERRED_PHONE branch (`app/main.py` lines 254-275). -/
def handlePreferredPhone (w : World) (s : SessionState) (utter : String) :
    World × OrchestrateResponse :=
  let yn := yes_no utter
  if yn = some true ∧ optTruthy s.caller_number then
    let s := { s with phone := s.caller_number, best_phone := s.caller_number }
    if s.correction_mode then
      let s := toSummary s
      respondW w s (next_prompt_text s "Updated. I’ll read the details again.") false false
    else
      let s := { s with stage := "ASK_EMAIL" }
      respondW w s (next_prompt_text s PROMPTS_ASK_EMAIL) false false
  else if yn = some false ∨ ¬ optTruthy s.caller_number then
    let s := { s with stage := "ASK_PHONE" }
    respondW w s (next_prompt_text s PROMPTS_ASK_PHONE) false false
  else
    let r := bump_retry s "PREFERRED_PHONE"
    if r.2 then
      let s := { r.1 with stage := "ASK_PHONE" }
      respondW w s (next_prompt_text s PROMPTS_ASK_PHONE) false false
    else respondW w r.1 (next_prompt_text r.1 (promptAskPreferredPhone (strOr r.1.caller_number "this number"))) false false

/-- The ASK_PHONE branch (`app/main.py` lines 277-298). -/
def handleAskPhone (w : World) (s : SessionState) (utter : String) :
    World × OrchestrateResponse :=
  match normalize_phone utter with
  | some ph =>
    let s := { s with phone := some ph, best_phone := some ph }
    if s.correction_mode then
      let s := toSummary s
      respondW w s (next_prompt_text s "Thanks. I’ll read the updated details now.") false false
    else
      let s := { s with stage := "ASK_EMAIL" }
      respondW w s (next_prompt_text s PROMPTS_ASK_EMAIL) false false
  | none =>
    let r := bump_retry s "ASK_PHONE"
    if r.2 then
      if r.1.correction_mode then
        let s := toSummary r.1
        respondW w s (next_prompt_text s "I’ll skip that change. Reading your details now.") false false
      else
        let s := { r.1 with stage := "ASK_EMAIL" }
        respondW w s (next_prompt_text s PROMPTS_ASK_EMAIL) false false
    else respondW w r.1 (next_prompt_text r.1 "Please say your 10-digit phone number.") false false

/-- The ASK_EMAIL branch (`app/main.py` lines 300-319): any non-empty
utterance is stored as the email, unvalidated. -/
def handleAskEmail (w : World) (s : SessionState) (utter : String) :
    World × OrchestrateResponse :=
  if utter ≠ "" then
    let s := { s with email := some utter }
    if s.correction_mode then
      let s := toSummary s
      respondW w s (next_prompt_text s "Thanks. I’ll read the updated details now.") false false
    else
      let s := { s with stage := "ASK_ADDRESS" }
      respondW w s (next_prompt_text s PROMPTS_ASK_ADDRESS) false false
  else
    let r := bump_retry s "ASK_EMAIL"
    if r.2 then
      if r.1.correction_mode then
        let s := toSummary r.1
        respondW w s (next_prompt_text s "Okay, I’ll leave email as is and read your details.") false false
      else
        let s := { r.1 with stage := "ASK_ADDRESS" }
        respondW w s (next_prompt_text s PROMPTS_ASK_ADDRESS) false false
    else respondW w r.1 (next_prompt_text r.1 PROMPTS_ASK_EMAIL) false false

/-- The knowledge-base eligibility lookup inside the ASK_ADDRESS branch
(`app/main.py` lines 338-349); the `except` arm keeps an existing value or
falls back to "unknown". -/
def kbEligibility (o : Oracle) (s : SessionState) : SessionState :=
  if optTruthy s.state then
    match o.kbSearch ("Does Oasis serve clients in " ++ fmtOpt s.state ++ "?") 3 with
    | .ok hits =>
      let text := lowerStr (joinWith " " (hits.map KBHit.text))
      if containsSub text "does not serve" ∨ containsSub text "do not serve" ∨
          containsSub text "not available" then
        { s with state_eligible := some "no" }
      else if containsSub text "serve" ∨ containsSub text "available" ∨
          containsSub text "support" then
        { s with state_eligible := some "yes" }
      else { s with state_eligible := some "unknown" }
    | .error _ => { s with state_eligible := some (strOr s.state_eligible "unknown") }
  else s

/-- The informational message assembled in the ASK_ADDRESS branch
(`app/main.py` lines 350-354). -/
def addressNotes (s : SessionState) : String :=
  (if ¬ s.address_verified then PROMPTS_ADDRESS_VERIFY_FAIL ++ " " else "") ++
  (if optTruthy s.state then
     if s.state_eligible = some "yes" then stateEligibleMsg (fmtOpt s.state) ++ " "
     else if s.state_eligible = some "no" then stateIneligibleMsg (fmtOpt s.state) ++ " "
     else ""
   else "")

/-- The ASK_ADDRESS branch (`app/main.py` lines 321-372). -/
def handleAskAddress (o : Oracle) (w : World) (s : SessionState) (utter : String) :
    World × OrchestrateResponse :=
  let t := lowerStr utter
  if containsSub t "skip" ∨ containsSub t "prefer not" ∨ containsSub t "no address" then
    let s := { s with address := some "NOT PROVIDED", address_norm := none,
                      address_verified := false, state := none }
    if s.correction_mode then
      let s := toSummary s
      respondW w s (next_prompt_text s (PROMPTS_ADDRESS_SKIPPED ++ " I’ll read the details again.")) false false
    else
      let s := { s with stage := "ATTORNEY_YN" }
      respondW w s (next_prompt_text s (PROMPTS_ADDRESS_SKIPPED ++ " " ++ PROMPTS_ASK_ATTORNEY_YN)) false false
  else if utter ≠ "" then
    let va := o.verifyAddress utter
    let s := { s with address := some utter, address_verified := va.1,
                      address_norm := some (strOr va.2 utter) }
    let s := { s with state := pyOrOpt (infer_state_from_address (fmtOpt s.address_norm)) s.state }
    let s := kbEligibility o s
    let msg := addressNotes s
    if s.correction_mode then
      let s := toSummary s
      respondW w s (next_prompt_text s (pyStrip (msg ++ "I’ll read the updated details now."))) false false
    else
      let s := { s with stage := "ATTORNEY_YN" }
      respondW w s (next_prompt_text s (pyStrip (msg ++ PROMPTS_ASK_ATTORNEY_YN))) false false
  else
    let r := bump_retry s "ASK_ADDRESS"
    if r.2 then
      let s := { r.1 with address := some "NOT PROVIDED" }
      if s.correction_mode then
        let s := toSummary s
        respondW w s (next_prompt_text s (PROMPTS_ADDRESS_SKIPPED ++ " I’ll read your details now.")) false false
      else
        let s := { s with stage := "ATTORNEY_YN" }
        respondW w s (next_prompt_text s (PROMPTS_ADDRESS_SKIPPED ++ " " ++ PROMPTS_ASK_ATTORNEY_YN)) false false
    else respondW w r.1 (next_prompt_text r.1 PROMPTS_ASK_ADDRESS) false false

/-- The ATTORNEY_YN branch (`app/main.py` lines 374-400). -/
def handleAttorneyYN (w : World) (s : SessionState) (utter : String) :
    World × OrchestrateResponse :=
  match yes_no utter with
  | some yn =>
    let s := { s with has_attorney := some yn }
    if yn then
      let s := { s with stage := "ATTORNEY_INFO" }
      respondW w s (next_prompt_text s PROMPTS_ASK_ATTORNEY_INFO) false false
    else if s.correction_mode then
      let s := toSummary s
      respondW w s (next_prompt_text s "Updated. I’ll read your details now.") false false
    else
      let s := { s with stage := "CASE_TYPE" }
      respondW w s (next_prompt_text s PROMPTS_ASK_CASE_TYPE) false false
  | none =>
    let r := bump_retry s "ATTORNEY_YN"
    if r.2 then
      let s := { r.1 with has_attorney := some false }
      if s.correction_mode then
        let s := toSummary s
        respondW w s (next_prompt_text s "Okay, I’ll leave that unchanged and read your details.") false false
      else
        let s := { s with stage := "CASE_TYPE" }
        respondW w s (next_prompt_text s PROMPTS_ASK_CASE_TYPE) false false
    else respondW w r.1 (next_prompt_text r.1 PROMPTS_ASK_ATTORNEY_YN) false false

/-- The ATTORNEY_INFO branch (`app/main.py` lines 402-426): the whole
utterance is stored into every still-empty attorney field, the phone is
normalized, and the verification collaborator is consulted. -/
def handleAttorneyInfo (o : Oracle) (w : World) (s : SessionState) (utter : String) :
    World × OrchestrateResponse :=
  if utter ≠ "" then
    let s := { s with attorney_phone := normalize_phone utter }
    let s := if ¬ optTruthy s.attorney_name then { s with attorney_name := some utter } else s
    let s := if ¬ optTruthy s.law_firm then { s with law_firm := some utter } else s
    let s := if ¬ optTruthy s.law_firm_address then { s with law_firm_address := some utter } else s
    let s := { s with attorney_verified :=
      o.verifyAttorney s.attorney_name s.law_firm s.attorney_phone s.law_firm_address }
    let msg := if s.attorney_verified then "" else PROMPTS_ATTY_VERIFY_FAIL ++ " "
    if s.correction_mode then
      let s := toSummary s
      respondW w s (next_prompt_text s (pyStrip (msg ++ "I’ll read the updated details now."))) false false
    else
      let s := { s with stage := "CASE_TYPE" }
      respondW w s (next_prompt_text s (pyStrip (msg ++ PROMPTS_ASK_CASE_TYPE))) false false
  else
    let r := bump_retry s "ATTORNEY_INFO"
    if r.2 then
      if r.1.correction_mode then
        let s := toSummary r.1
        respondW w s (next_prompt_text s "Okay, we’ll keep existing attorney info. I’ll read your details now.") false false
      else
        let s := { r.1 with stage := "CASE_TYPE" }
        respondW w s (next_prompt_text s PROMPTS_ASK_CASE_TYPE) false false
    else respondW w r.1 (next_prompt_text r.1 PROMPTS_ASK_ATTORNEY_INFO) false false

/-- The CASE_TYPE branch (`app/main.py` lines 428-451). -/
def handleCaseType (w : World) (s : SessionState) (utter : String) :
    World × OrchestrateResponse :=
  if utter ≠ "" then
    let t := lowerStr utter
    let ty := if containsSub t "auto" ∨ containsSub t "car" then "auto accident"
              else if containsSub t "slip" ∨ containsSub t "fall" then "slip and fall"
              else if containsSub t "dog" ∨ containsSub t "bite" then "dog bite"
              else utter
    let s := { s with injury_type := some ty }
    if s.correction_mode then
      let s := toSummary s
      respondW w s (next_prompt_text s "Updated. I’ll read your details now.") false false
    else
      let s := { s with stage := "INJURY_DETAILS" }
      respondW w s (next_prompt_text s PROMPTS_ASK_INJURY_DETAILS) false false
  else
    let r := bump_retry s "CASE_TYPE"
    if r.2 then
      if r.1.correction_mode then
        let s := toSummary r.1
        respondW w s (next_prompt_text s "We’ll keep the current case type. I’ll read your details now.") false false
      else
        let s := { r.1 with stage := "INJURY_DETAILS" }
        respondW w s (next_prompt_text s PROMPTS_ASK_INJURY_DETAILS) false false
    else respondW w r.1 (next_prompt_text r.1 PROMPTS_ASK_CASE_TYPE) false false

/-- The INJURY_DETAILS branch (`app/main.py` lines 453-472). -/
def handleInjuryDetails (w : World) (s : SessionState) (utter : String) :
    World × OrchestrateResponse :=
  if utter ≠ "" then
    let s := { s with injury_details := some utter }
    if s.correction_mode then
      let s := toSummary s
      respondW w s (next_prompt_text s "Thanks. I’ll read the updated details now.") false false
    else
      let s := { s with stage := "INCIDENT_DATE" }
      respondW w s (next_prompt_text s PROMPTS_ASK_INCIDENT_DATE) false false
  else
    let r := bump_retry s "INJURY_DETAILS"
    if r.2 then
      if r.1.correction_mode then
        let s := toSummary r.1
        respondW w s (next_prompt_text s "Okay, leaving that as is. I’ll read your details.") false false
      else
        let s := { r.1 with stage := "INCIDENT_DATE" }
        respondW w s (next_prompt_text s PROMPTS_ASK_INCIDENT_DATE) false false
    else respondW w r.1 (next_prompt_text r.1 PROMPTS_ASK_INJURY_DETAILS) false false

/-- The INCIDENT_DATE branch (`app/main.py` lines 474-494). -/
def handleIncidentDate (o : Oracle) (w : World) (s : SessionState) (utter : String) :
    World × OrchestrateResponse :=
  let d := o.parseIncidentDate utter
  if optTruthy d then
    let s := { s with incident_date := d }
    if s.correction_mode then
      let s := toSummary s
      respondW w s (next_prompt_text s ("Captured " ++ fmtOpt d ++ ". I’ll read your details now.")) false false
    else
      let s := { s with stage := "FUNDING_TYPE" }
      respondW w s (next_prompt_text s PROMPTS_ASK_FUNDING_TYPE) false false
  else
    let r := bump_retry s "INCIDENT_DATE"
    if r.2 then
      if r.1.correction_mode then
        let s := toSummary r.1
        respondW w s (next_prompt_text s "I’ll keep the current date. Reading your details now.") false false
      else
        let s := { r.1 with stage := "FUNDING_TYPE" }
        respondW w s (next_prompt_text s PROMPTS_ASK_FUNDING_TYPE) false false
    else respondW w r.1 (next_prompt_text r.1 PROMPTS_ASK_INCIDENT_DATE) false false

/-- The shared tail of the FUNDING_TYPE branch (`app/main.py` lines 506-512),
reached once a funding type is set or forced. -/
def fundingTypeTail (w : World) (s : SessionState) : World × OrchestrateResponse :=
  if s.correction_mode then
    let s := toSummary s
    respondW w s (next_prompt_text s "Updated. I’ll read your details now.") false false
  else
    let s := { s with stage := "FUNDING_AMOUNT" }
    respondW w s (next_prompt_text s PROMPTS_ASK_FUNDING_AMOUNT) false false

/-- The FUNDING_TYPE branch (`app/main.py` lines 496-512). -/
def handleFundingType (w : World) (s : SessionState) (utter : String) :
    World × OrchestrateResponse :=
  let t := lowerStr utter
  if containsSub t "fresh" ∨ containsSub t "new" then
    fundingTypeTail w { s with funding_type := some "fresh" }
  else if containsSub t "extend" ∨ containsSub t "top" then
    fundingTypeTail w { s with funding_type := some "topup" }
  else
    let r := bump_retry s "FUNDING_TYPE"
    if r.2 then fundingTypeTail w { r.1 with funding_type := some (strOr r.1.funding_type "fresh") }
    else respondW w r.1 (next_prompt_text r.1 PROMPTS_ASK_FUNDING_TYPE) false false

/-- The FUNDING_AMOUNT branch (`app/main.py` lines 514-522): on success (or
forced advance) it sets `stage` to SUMMARY and falls through — but the
subsequent checks compare the stage snapshot "FUNDING_AMOUNT", so the turn
ends in the final fallback. -/
def handleFundingAmount (w : World) (s : SessionState) (utter : String) :
    World × OrchestrateResponse :=
  let amt := extract_amount_usd utter
  if optTruthy amt then
    handleTail "FUNDING_AMOUNT" w { s with funding_amount := amt, stage := "SUMMARY" } utter
  else
    let r := bump_retry s "FUNDING_AMOUNT"
    if r.2 then handleTail "FUNDING_AMOUNT" w { r.1 with stage := "SUMMARY" } utter
    else respondW w r.1 (next_prompt_text r.1 PROMPTS_ASK_FUNDING_AMOUNT) false false

/-- The session state at the top of a turn (`app/main.py` lines 126-128):
loaded from the store or lazily created, with the caller number normalized
on first sight. -/
def entryState (w : World) (req : OrchestrateRequest) : SessionState :=
  let s0 := (alookup w.sessions req.session_id).getD (SessionState.init req.session_id)
  if optTruthy req.caller_number ∧ ¬ optTruthy s0.caller_number
  then { s0 with caller_number := normalize_phone (req.caller_number.getD "") }
  else s0

/-- The world after the caller's turn is appended when the stripped
utterance is non-empty (`app/main.py` lines 132-133); `stage0` is the stage
snapshot recorded on the user turn. -/
def userAppendedWorld (w : World) (req : OrchestrateRequest) (stage0 : String) : World :=
  let utter := pyStrip (req.last_user_utterance.getD "")
  if utter ≠ "" then appendTurnW w req.session_id (mkTurn w.time "user" utter stage0 none) else w

/-- The sequential stage dispatch of `app/main.py::orchestrate`
(lines 136-623): each `if` compares the stage snapshot taken before any
branch mutates `state.stage`, and each branch returns via `respond`. -/
def dispatchStage (o : Oracle) (stage : String) (w1 : World) (s : SessionState)
    (utter : String) : World × OrchestrateResponse :=
  if stage = "ENTRY" then handleEntry w1 s
  else if stage = "GREETING" then handleGreeting w1 s
  else if stage = "RESUME_CHOICE" then handleResumeChoice w1 s utter
  else if stage = "ASK_NAME" then handleAskName w1 s utter
  else if stage = "ASK_LAST_NAME" then handleAskLastName w1 s utter
  else if stage = "PREFERRED_PHONE" then handlePreferredPhone w1 s utter
  else if stage = "ASK_PHONE" then handleAskPhone w1 s utter
  else if stage = "ASK_EMAIL" then handleAskEmail w1 s utter
  else if stage = "ASK_ADDRESS" then handleAskAddress o w1 s utter
  else if stage = "ATTORNEY_YN" then handleAttorneyYN w1 s utter
  else if stage = "ATTORNEY_INFO" then handleAttorneyInfo o w1 s utter
  else if stage = "CASE_TYPE" then handleCaseType w1 s utter
  else if stage = "INJURY_DETAILS" then handleInjuryDetails w1 s utter
  else if stage = "INCIDENT_DATE" then handleIncidentDate o w1 s utter
  else if stage = "FUNDING_TYPE" then handleFundingType w1 s utter
  else if stage = "FUNDING_AMOUNT" then handleFundingAmount w1 s utter
  else handleTail stage w1 s utter

/-- `app/main.py::orchestrate` body after the API-key check, assembled from
the pieces above: the stage snapshot both tags the caller turn and selects
the branch. -/
def orchestrateCore (o : Oracle) (w : World) (req : OrchestrateRequest) :
    World × OrchestrateResponse :=
  dispatchStage o (entryState w req).stage
    (userAppendedWorld w req (entryState w req).stage) (entryState w req)
    (pyStrip (req.last_user_utterance.getD ""))

/-- `app/main.py::orchestrate` (the `/orchestrate` endpoint): when an API key
is configured and the header mismatches, HTTP 401 is raised before any
session state is read or written; a `.error` result carries the status
code. -/
def orchestrate (o : Oracle) (apiKey : String) (xApiKey : Option String)
    (w : World) (req : OrchestrateRequest) : World × Except Nat OrchestrateResponse :=
  if apiKey ≠ "" ∧ xApiKey ≠ some apiKey then (w, .error 401)
  else
    let r := orchestrateCore o w req
    (r.1, .ok r.2)

/-- `app/main.py::reset_session` (the `/reset` endpoint): same API-key
check, then the session and its transcript are discarded. -/
def reset_session (apiKey : String) (xApiKey : Option String)
    (w : World) (req : OrchestrateRequest) : World × Except Nat Bool :=
  if apiKey ≠ "" ∧ xApiKey ≠ some apiKey then (w, .error 401)
  else ({ w with sessions := adel w.sessions req.session_id,
                 transcripts := adel w.transcripts req.session_id }, .ok true)

/-- A trivial collaborator oracle for concrete runs: verification fails
closed, the knowledge base returns no snippets, no date parses. -/
def trivOracle : Oracle :=
  { verifyAddress := fun _ => (false, none),
    verifyAttorney := fun _ _ _ _ => false,
    kbSearch := fun _ _ => .ok [],
    parseIncidentDate := fun _ => none }

/-- A world holding exactly one stored session, for concrete runs. -/
def oneSessionWorld (s : SessionState) : World :=
  { sessions := [(s.session_id, s)], transcripts := [], db := [], time := 0 }

/-- A request for session `sid` carrying utterance `u` and no caller id. -/
def mkReq (sid u : String) : OrchestrateRequest :=
  { session_id := sid, last_user_utterance := some u }

/-- The stored session after a turn, if any. -/
def sessionAfter (r : World × Except Nat OrchestrateResponse) (sid : String) :
    Option SessionState :=
  alookup r.1.sessions sid

/-- The response of a successful turn, if any. -/
def okResp (r : World × Except Nat OrchestrateResponse) : Option OrchestrateResponse :=
  match r.2 with
  | .ok x => some x
  | .error _ => none

/-- The empty initial world: no sessions, no transcripts, empty table. -/
def emptyWorld : World := {}

/-- The shape every stage branch of the engine ends in: a single `respondW`
call on a world with the same transcripts, database and clock, for a state
carrying the same session id. -/
def EndsInRespond (f : World × OrchestrateResponse) (w : World) (sid : String) : Prop :=
  ∃ w2 s t c h, f = respondW w2 s t c h ∧ w2.transcripts = w.transcripts ∧
    w2.db = w.db ∧ w2.time = w.time ∧ s.session_id = sid

-- ===== basic lemmas =====

theorem alookup_aset {α : Type} (l : List (String × α)) (k : String) (v : α) :
    alookup (aset l k v) k = some v := by
  induction l with
  | nil => simp [aset, alookup, List.find?]
  | cons p t ih =>
    by_cases h : p.1 = k
    · simp [aset, h, alookup, List.find?]
    · simp [aset, h, alookup, List.find?] at ih ⊢
      exact ih

theorem EndsInRespond.intro {w : World} {sid : String} (w2 : World) (s : SessionState)
    (t : String) (c h : Bool) (htr : w2.transcripts = w.transcripts)
    (hdb : w2.db = w.db) (htime : w2.time = w.time) (hsid : s.session_id = sid) :
    EndsInRespond (respondW w2 s t c h) w sid :=
  ⟨w2, s, t, c, h, rfl, htr, hdb, htime, hsid⟩

theorem correctSelectRetry_shape (w : World) (s : SessionState) :
    EndsInRespond (correctSelectRetry w s) w s.session_id := by
  unfold correctSelectRetry
  repeat' first
    | (exact EndsInRespond.intro _ _ _ _ _ rfl rfl rfl rfl)
    | split
    | dsimp only

theorem correctTargetDispatch_shape (w : World) (s : SessionState) (target : String) :
    EndsInRespond (correctTargetDispatch w s target) w s.session_id := by
  unfold correctTargetDispatch
  repeat' first
    | (exact EndsInRespond.intro _ _ _ _ _ rfl rfl rfl rfl)
    | (exact correctSelectRetry_shape _ _)
    | split
    | dsimp only

theorem tailRest_shape (stage0 : String) (w : World) (s : SessionState) (u : String) :
    EndsInRespond (tailRest stage0 w s u) w s.session_id := by
  unfold tailRest
  repeat' first
    | (exact EndsInRespond.intro _ _ _ _ _ rfl rfl rfl rfl)
    | (exact correctTargetDispatch_shape _ _ _)
    | (exact correctSelectRetry_shape _ _)
    | split
    | dsimp only

theorem handleTail_shape (stage0 : String) (w : World) (s : SessionState) (u : String) :
    EndsInRespond (handleTail stage0 w s u) w s.session_id := by
  unfold handleTail
  repeat' first
    | (exact EndsInRespond.intro _ _ _ _ _ rfl rfl rfl rfl)
    | (exact tailRest_shape _ _ _ _)
    | split
    | dsimp only

theorem fundingTypeTail_shape (w : World) (s : SessionState) :
    EndsInRespond (fundingTypeTail w s) w s.session_id := by
  unfold fundingTypeTail
  repeat' first
    | (exact EndsInRespond.intro _ _ _ _ _ rfl rfl rfl rfl)
    | split
    | dsimp only

theorem handleEntry_shape (w : World) (s : SessionState) :
    EndsInRespond (handleEntry w s) w s.session_id := by
  unfold handleEntry
  repeat' first
    | (exact EndsInRespond.intro _ _ _ _ _ rfl rfl rfl rfl)
    | split
    | dsimp only

theorem handleGreeting_shape (w : World) (s : SessionState) :
    EndsInRespond (handleGreeting w s) w s.session_id := by
  unfold handleGreeting
  repeat' first
    | (exact EndsInRespond.intro _ _ _ _ _ rfl rfl rfl rfl)
    | split
    | dsimp only

theorem handleResumeChoice_shape (w : World) (s : SessionState) (u : String) :
    EndsInRespond (handleResumeChoice w s u) w s.session_id := by
  unfold handleResumeChoice
  repeat' first
    | (exact EndsInRespond.intro _ _ _ _ _ rfl rfl rfl rfl)
    | split
    | dsimp only

theorem handleAskName_shape (w : World) (s : SessionState) (u : String) :
    EndsInRespond (handleAskName w s u) w s.session_id := by
  unfold handleAskName
  repeat' first
    | (exact EndsInRespond.intro _ _ _ _ _ rfl rfl rfl rfl)
    | split
    | dsimp only

theorem handleAskLastName_shape (w : World) (s : SessionState) (u : String) :
    EndsInRespond (handleAskLastName w s u) w s.session_id := by
  unfold handleAskLastName
  repeat' first
    | (exact EndsInRespond.intro _ _ _ _ _ rfl rfl rfl rfl)
    | split
    | dsimp only

theorem handlePreferredPhone_shape (w : World) (s : SessionState) (u : String) :
    EndsInRespond (handlePreferredPhone w s u) w s.session_id := by
  unfold handlePreferredPhone
  repeat' first
    | (exact EndsInRespond.intro _ _ _ _ _ rfl rfl rfl rfl)
    | split
    | dsimp only

theorem handleAskPhone_shape (w : World) (s : SessionState) (u : String) :
    EndsInRespond (handleAskPhone w s u) w s.session_id := by
  unfold handleAskPhone
  repeat' first
    | (exact EndsInRespond.intro _ _ _ _ _ rfl rfl rfl rfl)
    | split
    | dsimp only

theorem handleAskEmail_shape (w : World) (s : SessionState) (u : String) :
    EndsInRespond (handleAskEmail w s u) w s.session_id := by
  unfold handleAskEmail
  repeat' first
    | (exact EndsInRespond.intro _ _ _ _ _ rfl rfl rfl rfl)
    | split
    | dsimp only


theorem kbEligibility_sid (o : Oracle) (s : SessionState) :
    (kbEligibility o s).session_id = s.session_id := by
  unfold kbEligibility
  repeat' first
    | rfl
    | split
    | dsimp only

theorem handleAskAddress_shape (o : Oracle) (w : World) (s : SessionState) (u : String) :
    EndsInRespond (handleAskAddress o w s u) w s.session_id := by
  unfold handleAskAddress
  repeat' first
    | (exact EndsInRespond.intro _ _ _ _ _ rfl rfl rfl rfl)
    | (exact EndsInRespond.intro _ _ _ _ _ rfl rfl rfl (kbEligibility_sid _ _))
    | split
    | dsimp only

theorem handleAttorneyYN_shape (w : World) (s : SessionState) (u : String) :
    EndsInRespond (handleAttorneyYN w s u) w s.session_id := by
  unfold handleAttorneyYN
  repeat' first
    | (exact EndsInRespond.intro _ _ _ _ _ rfl rfl rfl rfl)
    | split
    | dsimp only

theorem handleAttorneyInfo_shape (o : Oracle) (w : World) (s : SessionState) (u : String) :
    EndsInRespond (handleAttorneyInfo o w s u) w s.session_id := by
  unfold handleAttorneyInfo
  repeat' first
    | (exact EndsInRespond.intro _ _ _ _ _ rfl rfl rfl rfl)
    | split
    | dsimp only

theorem handleCaseType_shape (w : World) (s : SessionState) (u : String) :
    EndsInRespond (handleCaseType w s u) w s.session_id := by
  unfold handleCaseType
  repeat' first
    | (exact EndsInRespond.intro _ _ _ _ _ rfl rfl rfl rfl)
    | split
    | dsimp only

theorem handleInjuryDetails_shape (w : World) (s : SessionState) (u : String) :
    EndsInRespond (handleInjuryDetails w s u) w s.session_id := by
  unfold handleInjuryDetails
  repeat' first
    | (exact EndsInRespond.intro _ _ _ _ _ rfl rfl rfl rfl)
    | split
    | dsimp only

theorem handleIncidentDate_shape (o : Oracle) (w : World) (s : SessionState) (u : String) :
    EndsInRespond (handleIncidentDate o w s u) w s.session_id := by
  unfold handleIncidentDate
  repeat' first
    | (exact EndsInRespond.intro _ _ _ _ _ rfl rfl rfl rfl)
    | split
    | dsimp only

theorem handleFundingType_shape (w : World) (s : SessionState) (u : String) :
    EndsInRespond (handleFundingType w s u) w s.session_id := by
  unfold handleFundingType
  repeat' first
    | (exact EndsInRespond.intro _ _ _ _ _ rfl rfl rfl rfl)
    | (exact fundingTypeTail_shape _ _)
    | split
    | dsimp only

theorem handleFundingAmount_shape (w : World) (s : SessionState) (u : String) :
    EndsInRespond (handleFundingAmount w s u) w s.session_id := by
  unfold handleFundingAmount
  repeat' first
    | (exact EndsInRespond.intro _ _ _ _ _ rfl rfl rfl rfl)
    | (exact handleTail_shape _ _ _ _)
    | split
    | dsimp only

theorem dispatchStage_shape (o : Oracle) (stage : String) (w1 : World)
    (s : SessionState) (u : String) :
    EndsInRespond (dispatchStage o stage w1 s u) w1 s.session_id := by
  unfold dispatchStage
  by_cases h1 : stage = "ENTRY"
  · rw [if_pos h1]
    exact handleEntry_shape _ _
  rw [if_neg h1]
  by_cases h2 : stage = "GREETING"
  · rw [if_pos h2]
    exact handleGreeting_shape _ _
  rw [if_neg h2]
  by_cases h3 : stage = "RESUME_CHOICE"
  · rw [if_pos h3]
    exact handleResumeChoice_shape _ _ _
  rw [if_neg h3]
  by_cases h4 : stage = "ASK_NAME"
  · rw [if_pos h4]
    exact handleAskName_shape _ _ _
  rw [if_neg h4]
  by_cases h5 : stage = "ASK_LAST_NAME"
  · rw [if_pos h5]
    exact handleAskLastName_shape _ _ _
  rw [if_neg h5]
  by_cases h6 : stage = "PREFERRED_PHONE"
  · rw [if_pos h6]
    exact handlePreferredPhone_shape _ _ _
  rw [if_neg h6]
  by_cases h7 : stage = "ASK_PHONE"
  · rw [if_pos h7]
    exact handleAskPhone_shape _ _ _
  rw [if_neg h7]
  by_cases h8 : stage = "ASK_EMAIL"
  · rw [if_pos h8]
    exact handleAskEmail_shape _ _ _
  rw [if_neg h8]
  by_cases h9 : stage = "ASK_ADDRESS"
  · rw [if_pos h9]
    exact handleAskAddress_shape _ _ _ _
  rw [if_neg h9]
  by_cases h10 : stage = "ATTORNEY_YN"
  · rw [if_pos h10]
    exact handleAttorneyYN_shape _ _ _
  rw [if_neg h10]
  by_cases h11 : stage = "ATTORNEY_INFO"
  · rw [if_pos h11]
    exact handleAttorneyInfo_shape _ _ _ _
  rw [if_neg h11]
  by_cases h12 : stage = "CASE_TYPE"
  · rw [if_pos h12]
    exact handleCaseType_shape _ _ _
  rw [if_neg h12]
  by_cases h13 : stage = "INJURY_DETAILS"
  · rw [if_pos h13]
    exact handleInjuryDetails_shape _ _ _
  rw [if_neg h13]
  by_cases h14 : stage = "INCIDENT_DATE"
  · rw [if_pos h14]
    exact handleIncidentDate_shape _ _ _ _
  rw [if_neg h14]
  by_cases h15 : stage = "FUNDING_TYPE"
  · rw [if_pos h15]
    exact handleFundingType_shape _ _ _
  rw [if_neg h15]
  by_cases h16 : stage = "FUNDING_AMOUNT"
  · rw [if_pos h16]
    exact handleFundingAmount_shape _ _ _
  rw [if_neg h16]
  exact handleTail_shape _ _ _ _

theorem orchestrateCore_shape (o : Oracle) (w : World) (req : OrchestrateRequest) :
    EndsInRespond (orchestrateCore o w req)
      (userAppendedWorld w req (entryState w req).stage)
      (entryState w req).session_id := by
  unfold orchestrateCore
  exact dispatchStage_shape o (entryState w req).stage _ (entryState w req) _

-- ===== respond conclusions =====

theorem respondW_fst_db (w : World) (s : SessionState) (t : String) (c h : Bool) :
    (respondW w s t c h).1.db =
      upsert_application_from_state w.db { s with last_prompt := some t } w.time := rfl

theorem respondW_snd_listen (w : World) (s : SessionState) (t : String) (c h : Bool) :
    (respondW w s t c h).2.listen_timeout_sec = 7 := rfl

theorem respondW_persists (w : World) (s : SessionState) (t : String) (c h : Bool) :
    alookup (respondW w s t c h).1.transcripts s.session_id =
      some (appendTurnL ((alookup w.transcripts s.session_id).getD [])
        (mkTurn w.time "ai" t s.stage (some ⟨c, h, []⟩))) := by
  unfold respondW appendTurnW
  exact alookup_aset _ _ _

theorem endsInRespond_persists {f : World × OrchestrateResponse} {w : World} {sid : String}
    (hf : EndsInRespond f w sid) :
    ∃ s t c h,
      alookup f.1.transcripts sid =
        some (appendTurnL ((alookup w.transcripts sid).getD [])
          (mkTurn w.time "ai" t s.stage (some ⟨c, h, []⟩))) ∧
      f.1.db = upsert_application_from_state w.db s w.time ∧
      f.2.listen_timeout_sec = 7 ∧ s.session_id = sid := by
  obtain ⟨w2, s, t, c, h, hfe, htr, hdb, htime, hsid⟩ := hf
  subst hfe
  refine ⟨{ s with last_prompt := some t }, t, c, h, ?_, ?_, rfl, hsid⟩
  · rw [← htr, ← htime, ← hsid]
    exact respondW_persists w2 s t c h
  · rw [← hdb, ← htime]
    exact respondW_fst_db w2 s t c h

theorem userAppendedWorld_db (w : World) (req : OrchestrateRequest) (st : String) :
    (userAppendedWorld w req st).db = w.db := by
  unfold userAppendedWorld appendTurnW
  dsimp only
  split <;> rfl

theorem userAppendedWorld_time (w : World) (req : OrchestrateRequest) (st : String) :
    (userAppendedWorld w req st).time = w.time := by
  unfold userAppendedWorld appendTurnW
  dsimp only
  split <;> rfl

theorem userAppendedWorld_transcript (w : World) (req : OrchestrateRequest) (st : String) :
    (alookup (userAppendedWorld w req st).transcripts req.session_id).getD [] =
      (if pyStrip (req.last_user_utterance.getD "") ≠ "" then
        appendTurnL ((alookup w.transcripts req.session_id).getD [])
          (mkTurn w.time "user" (pyStrip (req.last_user_utterance.getD "")) st none)
      else (alookup w.transcripts req.session_id).getD []) := by
  unfold userAppendedWorld appendTurnW
  by_cases hu : pyStrip (req.last_user_utterance.getD "") ≠ ""
  · rw [if_pos hu, if_pos hu]
    dsimp only
    rw [alookup_aset]
    rfl
  · rw [if_neg hu, if_neg hu]

theorem entryState_sid (w : World) (req : OrchestrateRequest)
    (hwf : ∀ s, alookup w.sessions req.session_id = some s → s.session_id = req.session_id) :
    (entryState w req).session_id = req.session_id := by
  unfold entryState
  cases hs : alookup w.sessions req.session_id with
  | none =>
    dsimp only
    split <;> rfl
  | some s =>
    have h2 := hwf s hs
    dsimp only
    split <;> exact h2

-- ===== turn-reduction helpers =====

theorem respondW_fst_sessions (w : World) (s : SessionState) (t : String) (c h : Bool) :
    (respondW w s t c h).1.sessions =
      aset w.sessions s.session_id { s with last_prompt := some t } := rfl

theorem orchestrate_open (o : Oracle) (w : World) (req : OrchestrateRequest) :
    orchestrate o "" none w req =
      ((orchestrateCore o w req).1, .ok (orchestrateCore o w req).2) := rfl

theorem entryState_of_lookup (w : World) (req : OrchestrateRequest) (s : SessionState)
    (hs : alookup w.sessions req.session_id = some s) (hc : req.caller_number = none) :
    entryState w req = s := by
  unfold entryState
  rw [hs, hc]
  simp [optTruthy]

theorem orchestrateCore_of_state (o : Oracle) (w : World) (req : OrchestrateRequest)
    (s : SessionState) (hs : alookup w.sessions req.session_id = some s)
    (hc : req.caller_number = none) :
    orchestrateCore o w req =
      dispatchStage o s.stage (userAppendedWorld w req s.stage) s
        (pyStrip (req.last_user_utterance.getD "")) := by
  unfold orchestrateCore
  rw [entryState_of_lookup w req s hs hc]

theorem dispatchStage_ask_name (o : Oracle) (w1 : World) (s : SessionState) (u : String) :
    dispatchStage o "ASK_NAME" w1 s u = handleAskName w1 s u := rfl

theorem dispatchStage_ask_last_name (o : Oracle) (w1 : World) (s : SessionState) (u : String) :
    dispatchStage o "ASK_LAST_NAME" w1 s u = handleAskLastName w1 s u := rfl

theorem dispatchStage_ask_phone (o : Oracle) (w1 : World) (s : SessionState) (u : String) :
    dispatchStage o "ASK_PHONE" w1 s u = handleAskPhone w1 s u := rfl

theorem dispatchStage_ask_email (o : Oracle) (w1 : World) (s : SessionState) (u : String) :
    dispatchStage o "ASK_EMAIL" w1 s u = handleAskEmail w1 s u := rfl

theorem dispatchStage_funding_amount (o : Oracle) (w1 : World) (s : SessionState) (u : String) :
    dispatchStage o "FUNDING_AMOUNT" w1 s u = handleFundingAmount w1 s u := rfl

theorem dispatchStage_summary (o : Oracle) (w1 : World) (s : SessionState) (u : String) :
    dispatchStage o "SUMMARY" w1 s u = handleTail "SUMMARY" w1 s u := rfl

theorem dispatchStage_correct_select (o : Oracle) (w1 : World) (s : SessionState) (u : String) :
    dispatchStage o "CORRECT_SELECT" w1 s u = handleTail "CORRECT_SELECT" w1 s u := rfl

-- ===== C1 =====

/-- C1 (amended): in CORRECT_SELECT an unmatched utterance always increments
the `CORRECT_SELECT` retry counter by one and leaves the stage at
CORRECT_SELECT — the engine re-prompts forever and never forces a
transition (no QNA_OFFER stage exists), so the counter grows without
bound past `MAX_RETRIES_PER_STAGE`. -/
theorem C1_correct_select_retries_unbounded (o : Oracle) (w : World) (sid u : String)
    (s : SessionState) (hs : alookup w.sessions sid = some s)
    (hsid : s.session_id = sid) (hst : s.stage = "CORRECT_SELECT")
    (hmap : map_correction_field (pyStrip u) = none) :
    ∃ s', alookup (orchestrate o "" none w (mkReq sid u)).1.sessions sid = some s' ∧
      s'.stage = "CORRECT_SELECT" ∧
      alookup s'.retries "CORRECT_SELECT" =
        some ((alookup s.retries "CORRECT_SELECT").getD 0 + 1) := by
  subst hsid
  rw [orchestrate_open]
  dsimp only
  rw [orchestrateCore_of_state o w _ s hs rfl, hst, dispatchStage_correct_select]
  unfold handleTail tailRest
  rw [if_neg (by decide : ¬ ("CORRECT_SELECT" : String) = "SUMMARY")]
  rw [if_pos rfl]
  rw [show pyStrip ((mkReq s.session_id u).last_user_utterance.getD "") = pyStrip u from rfl]
  rw [hmap]
  unfold correctSelectRetry bump_retry
  dsimp only
  split <;>
    · rw [respondW_fst_sessions]
      exact ⟨_, alookup_aset _ _ _, hst, alookup_aset _ _ _⟩

/-- C1 witness: from a CORRECT_SELECT state whose counter already stands at
5, an unmatched turn leaves the stage in place and pushes the counter to 6,
past `MAX_RETRIES_PER_STAGE = 2`. -/
theorem C1_correct_select_retries_unbounded_witness :
    ∃ s', alookup (orchestrate trivOracle "" none
        (oneSessionWorld { SessionState.init "s1" with stage := "CORRECT_SELECT", retries := [("CORRECT_SELECT", 5)] })
        (mkReq "s1" "banana")).1.sessions "s1" = some s' ∧
      s'.stage = "CORRECT_SELECT" ∧
      alookup s'.retries "CORRECT_SELECT" =
        some ((alookup ({ SessionState.init "s1" with stage := "CORRECT_SELECT", retries := [("CORRECT_SELECT", 5)] } : SessionState).retries "CORRECT_SELECT").getD 0 + 1) :=
  C1_correct_select_retries_unbounded trivOracle
    (oneSessionWorld { SessionState.init "s1" with stage := "CORRECT_SELECT", retries := [("CORRECT_SELECT", 5)] })
    "s1" "banana"
    { SessionState.init "s1" with stage := "CORRECT_SELECT", retries := [("CORRECT_SELECT", 5)] }
    rfl rfl rfl rfl

/-- C1 counterexample: three consecutive unmatched turns from a fresh
CORRECT_SELECT state leave the stage at CORRECT_SELECT with the retry
counter at 3 > MAX_RETRIES_PER_STAGE — the engine kept re-asking instead of
moving the conversation forward (no QNA_OFFER stage exists). -/
theorem C1_counterexample :
    ∃ s', alookup (orchestrate trivOracle "" none
        (orchestrate trivOracle "" none
          (orchestrate trivOracle "" none
            (oneSessionWorld { SessionState.init "s1" with stage := "CORRECT_SELECT" })
            (mkReq "s1" "banana")).1
          (mkReq "s1" "banana")).1
        (mkReq "s1" "banana")).1.sessions "s1" = some s' ∧
      s'.stage = "CORRECT_SELECT" ∧
      alookup s'.retries "CORRECT_SELECT" = some 3 ∧ 3 > MAX_RETRIES_PER_STAGE :=
  ⟨_, rfl, rfl, rfl, by decide⟩

-- ===== C2 =====

/-- C2 (amended): handoff vocabulary is honoured only in the SUMMARY stage.
In the FLOW stage ASK_PHONE the utterance "agent" is treated as an
unparseable phone number: the response has handoff = false and the stored
session's `completed` flag is unchanged; the same utterance at SUMMARY
returns handoff = true. -/
theorem C2_handoff_only_in_summary (o : Oracle) (w : World) (sid : String)
    (s : SessionState) (hs : alookup w.sessions sid = some s)
    (hsid : s.session_id = sid) :
    (s.stage = "ASK_PHONE" →
      ∃ r s', (orchestrate o "" none w (mkReq sid "agent")).2 = .ok r ∧
        r.handoff = false ∧
        alookup (orchestrate o "" none w (mkReq sid "agent")).1.sessions sid = some s' ∧
        s'.completed = s.completed) ∧
    (s.stage = "SUMMARY" →
      ∃ r, (orchestrate o "" none w (mkReq sid "agent")).2 = .ok r ∧ r.handoff = true) := by
  subst hsid
  rw [orchestrate_open]
  dsimp only
  rw [orchestrateCore_of_state o w _ s hs rfl]
  rw [show pyStrip ((mkReq s.session_id "agent").last_user_utterance.getD "") = "agent" from rfl]
  constructor
  · intro hst
    rw [hst, dispatchStage_ask_phone]
    unfold handleAskPhone
    rw [show normalize_phone "agent" = none from rfl]
    unfold bump_retry
    dsimp only
    repeat' first
      | (rw [respondW_fst_sessions]
         exact ⟨_, _, rfl, rfl, alookup_aset _ _ _, rfl⟩)
      | split
      | dsimp only
  · intro hst
    rw [hst, dispatchStage_summary]
    unfold handleTail
    rw [if_pos rfl]
    rw [if_pos (by decide : wantsHuman (lowerStr "agent") = true)]
    exact ⟨_, rfl, rfl⟩

/-- C2 witness: concrete ASK_PHONE and SUMMARY sessions exercising both
parts of the amended statement. -/
theorem C2_handoff_only_in_summary_witness :
    (("ASK_PHONE" : String) = "ASK_PHONE" →
      ∃ r s', (orchestrate trivOracle "" none
          (oneSessionWorld { SessionState.init "s1" with stage := "ASK_PHONE" })
          (mkReq "s1" "agent")).2 = .ok r ∧
        r.handoff = false ∧
        alookup (orchestrate trivOracle "" none
          (oneSessionWorld { SessionState.init "s1" with stage := "ASK_PHONE" })
          (mkReq "s1" "agent")).1.sessions "s1" = some s' ∧
        s'.completed = ({ SessionState.init "s1" with stage := "ASK_PHONE" } : SessionState).completed) ∧
    (("ASK_PHONE" : String) = "SUMMARY" →
      ∃ r, (orchestrate trivOracle "" none
          (oneSessionWorld { SessionState.init "s1" with stage := "ASK_PHONE" })
          (mkReq "s1" "agent")).2 = .ok r ∧ r.handoff = true) :=
  C2_handoff_only_in_summary trivOracle
    (oneSessionWorld { SessionState.init "s1" with stage := "ASK_PHONE" }) "s1"
    { SessionState.init "s1" with stage := "ASK_PHONE" } rfl rfl

/-- C2 counterexample: in the FLOW stage ASK_PHONE the utterance "agent"
does NOT produce a handoff — the engine bumps the phone retry counter and
re-prompts with handoff = false (the claim requires handoff = true). -/
theorem C2_counterexample :
    ∃ r s', (orchestrate trivOracle "" none
        (oneSessionWorld { SessionState.init "s1" with stage := "ASK_PHONE" })
        (mkReq "s1" "agent")).2 = .ok r ∧
      r.handoff = false ∧
      r.next_prompt = "Please say your 10-digit phone number." ∧
      alookup (orchestrate trivOracle "" none
        (oneSessionWorld { SessionState.init "s1" with stage := "ASK_PHONE" })
        (mkReq "s1" "agent")).1.sessions "s1" = some s' ∧
      s'.completed = false :=
  ⟨_, _, rfl, rfl, rfl, rfl, rfl⟩

-- ===== C3 =====

/-- C3 (amended): the engine never sets `awaiting_confirm_field`. A turn at
ASK_NAME or ASK_EMAIL leaves the field exactly as it was — a captured value
advances directly to the next question with no confirmation checkpoint. -/
theorem C3_awaiting_confirm_never_set (o : Oracle) (w : World) (sid u : String)
    (s : SessionState) (hs : alookup w.sessions sid = some s)
    (hsid : s.session_id = sid)
    (hst : s.stage = "ASK_NAME" ∨ s.stage = "ASK_EMAIL") :
    ∃ s', alookup (orchestrate o "" none w (mkReq sid u)).1.sessions sid = some s' ∧
      s'.awaiting_confirm_field = s.awaiting_confirm_field := by
  subst hsid
  rw [orchestrate_open]
  dsimp only
  rw [orchestrateCore_of_state o w _ s hs rfl]
  rcases hst with hst | hst <;> rw [hst]
  · rw [dispatchStage_ask_name]
    unfold handleAskName bump_retry
    repeat' first
      | (rw [respondW_fst_sessions]
         exact ⟨_, alookup_aset _ _ _, rfl⟩)
      | split
      | dsimp only
  · rw [dispatchStage_ask_email]
    unfold handleAskEmail bump_retry
    repeat' first
      | (rw [respondW_fst_sessions]
         exact ⟨_, alookup_aset _ _ _, rfl⟩)
      | split
      | dsimp only

/-- C3 witness: a concrete ASK_NAME turn capturing "Joe Smith" leaves
`awaiting_confirm_field` unchanged. -/
theorem C3_awaiting_confirm_never_set_witness :
    ∃ s', alookup (orchestrate trivOracle "" none
        (oneSessionWorld { SessionState.init "s1" with stage := "ASK_NAME" })
        (mkReq "s1" "Joe Smith")).1.sessions "s1" = some s' ∧
      s'.awaiting_confirm_field =
        ({ SessionState.init "s1" with stage := "ASK_NAME" } : SessionState).awaiting_confirm_field :=
  C3_awaiting_confirm_never_set trivOracle
    (oneSessionWorld { SessionState.init "s1" with stage := "ASK_NAME" })
    "s1" "Joe Smith" { SessionState.init "s1" with stage := "ASK_NAME" }
    rfl rfl (Or.inl rfl)

/-- C3 counterexample: capturing the name "Joe Smith" at ASK_NAME does NOT
set `awaiting_confirm_field` and does NOT return a confirmation prompt —
the engine stores the name and immediately asks the next field's question
(the phone prompt). -/
theorem C3_counterexample :
    ∃ s' r, alookup (orchestrate trivOracle "" none
        (oneSessionWorld { SessionState.init "s1" with stage := "ASK_NAME" })
        (mkReq "s1" "Joe Smith")).1.sessions "s1" = some s' ∧
      s'.awaiting_confirm_field = none ∧
      s'.full_name = some "Joe Smith" ∧
      s'.stage = "ASK_PHONE" ∧
      (orchestrate trivOracle "" none
        (oneSessionWorld { SessionState.init "s1" with stage := "ASK_NAME" })
        (mkReq "s1" "Joe Smith")).2 = .ok r ∧
      r.next_prompt = PROMPTS_ASK_PHONE :=
  ⟨_, _, rfl, rfl, rfl, rfl, rfl, rfl⟩

-- ===== C4 =====

/-- C4 (amended): at SUMMARY with `awaiting_confirmation` set, an
affirmative answer sets `completed = true` — but the stage advances to
DONE, not to QNA_OFFER (no Q&A stage exists in the engine). -/
theorem C4_affirmative_completes_to_done (o : Oracle) (w : World) (sid u : String)
    (s : SessionState) (hs : alookup w.sessions sid = some s)
    (hsid : s.session_id = sid) (hst : s.stage = "SUMMARY")
    (hsr : s.summary_read = true) (hac : s.awaiting_confirmation = true)
    (hhum : wantsHuman (lowerStr (pyStrip u)) = false)
    (hyes : yes_no (pyStrip u) = some true) :
    ∃ s' r, alookup (orchestrate o "" none w (mkReq sid u)).1.sessions sid = some s' ∧
      s'.completed = true ∧ s'.stage = "DONE" ∧
      (orchestrate o "" none w (mkReq sid u)).2 = .ok r ∧ r.completed = true := by
  subst hsid
  rw [orchestrate_open]
  dsimp only
  rw [orchestrateCore_of_state o w _ s hs rfl, hst, dispatchStage_summary]
  unfold handleTail
  rw [if_pos rfl]
  rw [show pyStrip ((mkReq s.session_id u).last_user_utterance.getD "") = pyStrip u from rfl]
  rw [hhum]
  rw [if_neg (by decide : ¬ (false = true))]
  rw [hsr]
  rw [if_neg (by decide : ¬ (¬ (true = true)))]
  rw [hac]
  rw [if_pos (by decide : (true = true))]
  rw [hyes]
  dsimp only
  rw [respondW_fst_sessions]
  exact ⟨_, _, alookup_aset _ _ _, rfl, rfl, rfl, rfl⟩

/-- C4 witness: a concrete SUMMARY session answering "yes". -/
theorem C4_affirmative_completes_to_done_witness :
    ∃ s' r, alookup (orchestrate trivOracle "" none
        (oneSessionWorld { SessionState.init "s1" with stage := "SUMMARY", summary_read := true, awaiting_confirmation := true })
        (mkReq "s1" "yes")).1.sessions "s1" = some s' ∧
      s'.completed = true ∧ s'.stage = "DONE" ∧
      (orchestrate trivOracle "" none
        (oneSessionWorld { SessionState.init "s1" with stage := "SUMMARY", summary_read := true, awaiting_confirmation := true })
        (mkReq "s1" "yes")).2 = .ok r ∧ r.completed = true :=
  C4_affirmative_completes_to_done trivOracle
    (oneSessionWorld { SessionState.init "s1" with stage := "SUMMARY", summary_read := true, awaiting_confirmation := true })
    "s1" "yes"
    { SessionState.init "s1" with stage := "SUMMARY", summary_read := true, awaiting_confirmation := true }
    rfl rfl rfl rfl rfl rfl rfl

/-- C4 counterexample: after the affirmative answer the stage is DONE, not
the QNA_OFFER stage the claim requires. -/
theorem C4_counterexample :
    ∃ s', alookup (orchestrate trivOracle "" none
        (oneSessionWorld { SessionState.init "s1" with stage := "SUMMARY", summary_read := true, awaiting_confirmation := true })
        (mkReq "s1" "yes")).1.sessions "s1" = some s' ∧
      s'.completed = true ∧ s'.stage = "DONE" ∧ ¬ s'.stage = "QNA_OFFER" :=
  ⟨_, rfl, rfl, rfl, by decide⟩

-- ===== C5 =====

/-- C5: the currency-amount validator is specified as a pure, total
function, but `utils.extract_amount` raises `ValueError` on inputs whose
first digit-or-comma character is a bare comma: the `[\d,]{1,9}` group of
its second regex matches just ",", and `int("")` on the comma-stripped
group throws. The `.error` value marks that raised exception, against the
claim that every string yields a canonical value or None; a digit-bearing
input still takes the normal path. -/
theorem C5_extract_amount_raises_on_comma :
    extract_amount "," = .error () ∧
    extract_amount "hello, world" = .error () ∧
    extract_amount "$2,000" = .ok (some "$2,000") :=
  ⟨rfl, rfl, rfl⟩

-- ===== C7 =====

/-- C7: with an API key configured and a mismatching (or absent) x-api-key
header, both the orchestrate and reset operations return HTTP 401 and the
world — sessions, transcripts and application records — is exactly the one
before the request. -/
theorem C7_auth_rejected_untouched (o : Oracle) (key : String) (hdr : Option String)
    (w : World) (req : OrchestrateRequest) (hk : key ≠ "") (hh : hdr ≠ some key) :
    orchestrate o key hdr w req = (w, .error 401) ∧
    reset_session key hdr w req = (w, .error 401) := by
  constructor
  · unfold orchestrate
    rw [if_pos ⟨hk, hh⟩]
  · unfold reset_session
    rw [if_pos ⟨hk, hh⟩]

/-- C7 witness: a wrong header against the key "k" is rejected with the
world unchanged. -/
theorem C7_auth_rejected_untouched_witness :
    orchestrate trivOracle "k" (some "wrong")
      (oneSessionWorld (SessionState.init "s1")) (mkReq "s1" "hello") =
      (oneSessionWorld (SessionState.init "s1"), .error 401) ∧
    reset_session "k" (some "wrong")
      (oneSessionWorld (SessionState.init "s1")) (mkReq "s1" "hello") =
      (oneSessionWorld (SessionState.init "s1"), .error 401) :=
  C7_auth_rejected_untouched trivOracle "k" (some "wrong")
    (oneSessionWorld (SessionState.init "s1")) (mkReq "s1" "hello")
    (by decide) (by decide)

-- ===== C8 =====

/-- C8: the currency validator maps the spoken form "two thousand dollars"
to the canonical "$2,000", and a FUNDING_AMOUNT turn carrying that
utterance stores funding_amount = "$2,000" (the stage moves to SUMMARY). -/
theorem C8_two_thousand_dollars (o : Oracle) (w : World) (sid : String)
    (s : SessionState) (hs : alookup w.sessions sid = some s)
    (hsid : s.session_id = sid) (hst : s.stage = "FUNDING_AMOUNT") :
    extract_amount "two thousand dollars" = .ok (some "$2,000") ∧
    ∃ s', alookup (orchestrate o "" none w
        (mkReq sid "two thousand dollars")).1.sessions sid = some s' ∧
      s'.funding_amount = some "$2,000" ∧ s'.stage = "SUMMARY" := by
  refine ⟨rfl, ?_⟩
  subst hsid
  rw [orchestrate_open]
  dsimp only
  rw [orchestrateCore_of_state o w _ s hs rfl, hst, dispatchStage_funding_amount]
  unfold handleFundingAmount
  rw [show pyStrip ((mkReq s.session_id "two thousand dollars").last_user_utterance.getD "")
    = "two thousand dollars" from rfl]
  rw [show extract_amount_usd "two thousand dollars" = some "$2,000" from rfl]
  rw [if_pos (by decide : optTruthy (some "$2,000") = true)]
  unfold handleTail tailRest
  rw [if_neg (by decide : ¬ ("FUNDING_AMOUNT" : String) = "SUMMARY")]
  rw [if_neg (by decide : ¬ ("FUNDING_AMOUNT" : String) = "CORRECT_SELECT")]
  rw [if_neg (by decide : ¬ ("FUNDING_AMOUNT" : String) = "DONE")]
  rw [respondW_fst_sessions]
  exact ⟨_, alookup_aset _ _ _, rfl, rfl⟩

/-- C8 witness: a concrete FUNDING_AMOUNT session hearing "two thousand
dollars". -/
theorem C8_two_thousand_dollars_witness :
    extract_amount "two thousand dollars" = .ok (some "$2,000") ∧
    ∃ s', alookup (orchestrate trivOracle "" none
        (oneSessionWorld { SessionState.init "s1" with stage := "FUNDING_AMOUNT" })
        (mkReq "s1" "two thousand dollars")).1.sessions "s1" = some s' ∧
      s'.funding_amount = some "$2,000" ∧ s'.stage = "SUMMARY" :=
  C8_two_thousand_dollars trivOracle
    (oneSessionWorld { SessionState.init "s1" with stage := "FUNDING_AMOUNT" })
    "s1" { SessionState.init "s1" with stage := "FUNDING_AMOUNT" } rfl rfl rfl

-- ===== C9 =====

/-- C9 (amended): every successful turn carries the constant
`listen_timeout_sec = 7` — `respond` never overrides the model default, so
free-form prompts (address, case narrative) get the same value as every
other prompt, not a longer one. -/
theorem C9_listen_timeout_constant (o : Oracle) (key : String) (hdr : Option String)
    (w w' : World) (req : OrchestrateRequest) (r : OrchestrateResponse)
    (hok : orchestrate o key hdr w req = (w', .ok r)) :
    r.listen_timeout_sec = 7 := by
  unfold orchestrate at hok
  by_cases ha : key ≠ "" ∧ hdr ≠ some key
  · rw [if_pos ha] at hok
    simp at hok
  · rw [if_neg ha] at hok
    dsimp only at hok
    obtain ⟨s, t, c, h, _, _, hlisten, _⟩ :=
      endsInRespond_persists (orchestrateCore_shape o w req)
    have h2 : (orchestrateCore o w req).2 = r := by
      have := congrArg Prod.snd hok
      simpa using this
    rw [← h2]
    exact hlisten

/-- C9 witness: a concrete turn satisfying the success hypothesis. -/
theorem C9_listen_timeout_constant_witness :
    (orchestrateCore trivOracle (oneSessionWorld (SessionState.init "s1"))
      (mkReq "s1" "hello")).2.listen_timeout_sec = 7 :=
  C9_listen_timeout_constant trivOracle "" none
    (oneSessionWorld (SessionState.init "s1")) _ (mkReq "s1" "hello") _ rfl

/-- C9 counterexample: the turn whose response prompts for the free-form
residential address (an ASK_EMAIL turn capturing an email) returns
`listen_timeout_sec = 7`, which is not strictly greater than the short
default 7 used by every other prompt. -/
theorem C9_counterexample :
    ∃ r, (orchestrate trivOracle "" none
        (oneSessionWorld { SessionState.init "s1" with stage := "ASK_EMAIL" })
        (mkReq "s1" "joe@example.com")).2 = .ok r ∧
      r.next_prompt = PROMPTS_ASK_ADDRESS ∧
      r.listen_timeout_sec = 7 ∧ ¬ r.listen_timeout_sec > 7 :=
  ⟨_, rfl, rfl, rfl, by decide⟩

-- ===== C6 =====

/-- C6: every turn that passes the API-key check — whatever stage branch it
takes — appends the caller's turn (when the stripped utterance is
non-empty) and then the assistant's turn to the per-session transcript
(each append evicting beyond the cap), and upserts the ApplicationRecord
from the session state as of the response, before returning it. -/
theorem C6_every_turn_persists (o : Oracle) (key : String) (hdr : Option String)
    (w : World) (req : OrchestrateRequest)
    (hauth : key = "" ∨ hdr = some key)
    (hwf : ∀ s, alookup w.sessions req.session_id = some s →
      s.session_id = req.session_id) :
    ∃ w' r s t c h,
      orchestrate o key hdr w req = (w', .ok r) ∧
      alookup w'.transcripts req.session_id =
        some (appendTurnL
          (if pyStrip (req.last_user_utterance.getD "") ≠ "" then
            appendTurnL ((alookup w.transcripts req.session_id).getD [])
              (mkTurn w.time "user" (pyStrip (req.last_user_utterance.getD ""))
                (entryState w req).stage none)
          else (alookup w.transcripts req.session_id).getD [])
          (mkTurn w.time "ai" t s.stage (some ⟨c, h, []⟩))) ∧
      w'.db = upsert_application_from_state w.db s w.time := by
  have hauth2 : ¬ (key ≠ "" ∧ hdr ≠ some key) := by
    rcases hauth with h | h
    · intro hx
      exact hx.1 h
    · intro hx
      exact hx.2 h
  obtain ⟨s, t, c, h, htr, hdb, _, hsid⟩ :=
    endsInRespond_persists (orchestrateCore_shape o w req)
  rw [entryState_sid w req hwf] at hsid htr
  rw [userAppendedWorld_transcript, userAppendedWorld_time] at htr
  rw [userAppendedWorld_db, userAppendedWorld_time] at hdb
  refine ⟨(orchestrateCore o w req).1, (orchestrateCore o w req).2, s, t, c, h, ?_, htr, hdb⟩
  unfold orchestrate
  rw [if_neg hauth2]

/-- C6 witness: a concrete first-contact turn satisfying both hypotheses. -/
theorem C6_every_turn_persists_witness :
    ∃ w' r s t c h,
      orchestrate trivOracle "" none emptyWorld (mkReq "s1" "hello") = (w', .ok r) ∧
      alookup w'.transcripts "s1" =
        some (appendTurnL
          (if pyStrip ((mkReq "s1" "hello").last_user_utterance.getD "") ≠ "" then
            appendTurnL ((alookup emptyWorld.transcripts "s1").getD [])
              (mkTurn emptyWorld.time "user"
                (pyStrip ((mkReq "s1" "hello").last_user_utterance.getD ""))
                (entryState emptyWorld (mkReq "s1" "hello")).stage none)
          else (alookup emptyWorld.transcripts "s1").getD [])
          (mkTurn emptyWorld.time "ai" t s.stage (some ⟨c, h, []⟩))) ∧
      w'.db = upsert_application_from_state emptyWorld.db s emptyWorld.time :=
  C6_every_turn_persists trivOracle "" none emptyWorld (mkReq "s1" "hello")
    (Or.inl rfl) (fun _ hx => by simp [emptyWorld, alookup, List.find?] at hx)

-- ===== string lemmas for the two-turn name capture =====

theorem dropWhile_head_false (p : Char → Bool) :
    ∀ (l : List Char) (c : Char) (t : List Char), l.dropWhile p = c :: t → p c = false := by
  intro l
  induction l with
  | nil => intro c t h; simp [List.dropWhile] at h
  | cons a l ih =>
    intro c t h
    rw [List.dropWhile_cons] at h
    by_cases hp : p a
    · rw [if_pos hp] at h
      exact ih c t h
    · rw [if_neg hp] at h
      cases h
      simpa using hp

theorem dropWhile_eq_self_of_head (p : Char → Bool) (c : Char) (t : List Char)
    (h : p c = false) : (c :: t).dropWhile p = c :: t := by
  rw [List.dropWhile_cons, h]
  simp

theorem stripList_prefix_dropWhile (l : List Char) :
    stripList l <+: l.dropWhile wsb := by
  unfold stripList
  have h1 : ((l.dropWhile wsb).reverse.dropWhile wsb) <:+ (l.dropWhile wsb).reverse :=
    List.dropWhile_suffix wsb
  have h2 := List.reverse_prefix.mpr h1
  simpa using h2

theorem stripList_head_false (l : List Char) (c : Char) (t : List Char)
    (h : stripList l = c :: t) : wsb c = false := by
  obtain ⟨r, hr⟩ := stripList_prefix_dropWhile l
  rw [h] at hr
  exact dropWhile_head_false wsb l c (t ++ r) (by rw [← hr]; simp)

theorem stripList_reverse_head_false (l : List Char) (c : Char) (t : List Char)
    (h : (stripList l).reverse = c :: t) : wsb c = false := by
  unfold stripList at h
  rw [List.reverse_reverse] at h
  exact dropWhile_head_false wsb _ c t h

theorem stripList_eq_self (L : List Char) (c d : Char) (t1 t2 : List Char)
    (h1 : L = c :: t1) (h2 : L.reverse = d :: t2)
    (hc : wsb c = false) (hd : wsb d = false) : stripList L = L := by
  unfold stripList
  rw [h1, dropWhile_eq_self_of_head wsb c t1 hc, ← h1]
  rw [h2, dropWhile_eq_self_of_head wsb d t2 hd, ← h2]
  simp

theorem stripList_glue (x y : List Char) (hx : stripList x ≠ []) (hy : stripList y ≠ []) :
    stripList (stripList x ++ ' ' :: stripList y) = stripList x ++ ' ' :: stripList y := by
  obtain ⟨a, ta, ha⟩ : ∃ a ta, stripList x = a :: ta := by
    cases hax : stripList x with
    | nil => exact absurd hax hx
    | cons a ta => exact ⟨a, ta, rfl⟩
  obtain ⟨b, tb, hb⟩ : ∃ b tb, (stripList y).reverse = b :: tb := by
    cases hby : (stripList y).reverse with
    | nil => exact absurd (by simpa using congrArg List.reverse hby) hy
    | cons b tb => exact ⟨b, tb, rfl⟩
  have hwa : wsb a = false := stripList_head_false x a ta ha
  have hwb : wsb b = false := stripList_reverse_head_false y b tb hb
  refine stripList_eq_self _ a b (ta ++ ' ' :: stripList y)
    (tb ++ ' ' :: (stripList x).reverse) ?_ ?_ hwa hwb
  · rw [ha]
    rfl
  · rw [List.reverse_append]
    rw [show (' ' :: stripList y).reverse = (stripList y).reverse ++ [' '] from by simp]
    rw [hb]
    simp

theorem pyStrip_ne_empty_data {x : String} (hx : pyStrip x ≠ "") :
    stripList x.data ≠ [] := by
  intro h
  apply hx
  show String.mk (stripList x.data) = ""
  rw [h]

theorem pyStrip_glue (x y : String) (hx : pyStrip x ≠ "") (hy : pyStrip y ≠ "") :
    pyStrip (pyStrip x ++ " " ++ pyStrip y) = pyStrip x ++ " " ++ pyStrip y := by
  have hdata : (pyStrip x ++ " " ++ pyStrip y).data
      = stripList x.data ++ ' ' :: stripList y.data := by
    show (stripList x.data ++ [' ']) ++ stripList y.data
        = stripList x.data ++ ' ' :: stripList y.data
    rw [List.append_assoc]
    rfl
  have hfix : stripList ((pyStrip x ++ " " ++ pyStrip y).data)
      = (pyStrip x ++ " " ++ pyStrip y).data := by
    rw [hdata]
    exact stripList_glue x.data y.data (pyStrip_ne_empty_data hx) (pyStrip_ne_empty_data hy)
  show String.mk (stripList ((pyStrip x ++ " " ++ pyStrip y).data)) = pyStrip x ++ " " ++ pyStrip y
  rw [hfix]

-- ===== single-turn lemmas for the two-turn name capture =====

theorem askName_single_token_turn (o : Oracle) (w : World) (sid u : String)
    (s : SessionState) (hs : alookup w.sessions sid = some s)
    (hsid : s.session_id = sid) (hst : s.stage = "ASK_NAME")
    (h1 : pySplit (pyStrip u) = [pyStrip u]) (hne : pyStrip u ≠ "") :
    ∃ s1, alookup (orchestrate o "" none w (mkReq sid u)).1.sessions sid = some s1 ∧
      s1.stage = "ASK_LAST_NAME" ∧ s1.full_name = some (pyStrip u) ∧
      s1.session_id = sid := by
  subst hsid
  rw [orchestrate_open]
  dsimp only
  rw [orchestrateCore_of_state o w _ s hs rfl, hst, dispatchStage_ask_name]
  rw [show pyStrip ((mkReq s.session_id u).last_user_utterance.getD "") = pyStrip u from rfl]
  unfold handleAskName
  rw [if_pos hne]
  rw [h1]
  dsimp only
  rw [if_pos (show ([pyStrip u] : List String).length = 1 from rfl)]
  rw [respondW_fst_sessions]
  exact ⟨_, alookup_aset _ _ _, rfl, rfl, rfl⟩

theorem askLastName_turn (o : Oracle) (w : World) (sid u : String)
    (s : SessionState) (hs : alookup w.sessions sid = some s)
    (hsid : s.session_id = sid) (hst : s.stage = "ASK_LAST_NAME")
    (hne : pyStrip u ≠ "") :
    ∃ s2, alookup (orchestrate o "" none w (mkReq sid u)).1.sessions sid = some s2 ∧
      s2.full_name = some (pyStrip (fmtOpt s.full_name ++ " " ++ pyStrip u)) := by
  subst hsid
  rw [orchestrate_open]
  dsimp only
  rw [orchestrateCore_of_state o w _ s hs rfl, hst, dispatchStage_ask_last_name]
  rw [show pyStrip ((mkReq s.session_id u).last_user_utterance.getD "") = pyStrip u from rfl]
  unfold handleAskLastName
  rw [if_pos hne]
  repeat' first
    | (rw [respondW_fst_sessions]
       exact ⟨_, alookup_aset _ _ _, rfl⟩)
    | split
    | dsimp only

-- ===== C10 =====

/-- C10: at ASK_NAME a single-token utterance does not advance to phone
capture: the token is stored as `full_name` and the stage moves to the
ASK_LAST_NAME follow-up; after the next non-empty utterance the resulting
`full_name` is the first token, a single space, and the second (stripped)
utterance concatenated. -/
theorem C10_single_token_name_followup (o : Oracle) (w : World) (sid u1 u2 : String)
    (s : SessionState) (hs : alookup w.sessions sid = some s)
    (hsid : s.session_id = sid) (hst : s.stage = "ASK_NAME")
    (h1 : pySplit (pyStrip u1) = [pyStrip u1])
    (hne1 : pyStrip u1 ≠ "") (hne2 : pyStrip u2 ≠ "") :
    ∃ s1, alookup (orchestrate o "" none w (mkReq sid u1)).1.sessions sid = some s1 ∧
      s1.stage = "ASK_LAST_NAME" ∧ s1.full_name = some (pyStrip u1) ∧
      ∃ s2, alookup (orchestrate o "" none
          (orchestrate o "" none w (mkReq sid u1)).1 (mkReq sid u2)).1.sessions sid = some s2 ∧
        s2.full_name = some (pyStrip u1 ++ " " ++ pyStrip u2) := by
  obtain ⟨s1, hls1, hstage1, hname1, hsid1⟩ :=
    askName_single_token_turn o w sid u1 s hs hsid hst h1 hne1
  obtain ⟨s2, hls2, hname2⟩ :=
    askLastName_turn o (orchestrate o "" none w (mkReq sid u1)).1 sid u2 s1
      hls1 hsid1 hstage1 hne2
  refine ⟨s1, hls1, hstage1, hname1, s2, hls2, ?_⟩
  rw [hname2, hname1]
  rw [show fmtOpt (some (pyStrip u1)) = pyStrip u1 from rfl]
  rw [pyStrip_glue u1 u2 hne1 hne2]

/-- C10 witness: "Joe" then "Smith" yields full_name = "Joe Smith" through
the ASK_LAST_NAME follow-up. -/
theorem C10_single_token_name_followup_witness :
    ∃ s1, alookup (orchestrate trivOracle "" none
        (oneSessionWorld { SessionState.init "s1" with stage := "ASK_NAME" })
        (mkReq "s1" "Joe")).1.sessions "s1" = some s1 ∧
      s1.stage = "ASK_LAST_NAME" ∧ s1.full_name = some (pyStrip "Joe") ∧
      ∃ s2, alookup (orchestrate trivOracle "" none
          (orchestrate trivOracle "" none
            (oneSessionWorld { SessionState.init "s1" with stage := "ASK_NAME" })
            (mkReq "s1" "Joe")).1 (mkReq "s1" "Smith")).1.sessions "s1" = some s2 ∧
        s2.full_name = some (pyStrip "Joe" ++ " " ++ pyStrip "Smith") :=
  C10_single_token_name_followup trivOracle
    (oneSessionWorld { SessionState.init "s1" with stage := "ASK_NAME" })
    "s1" "Joe" "Smith" { SessionState.init "s1" with stage := "ASK_NAME" }
    rfl rfl rfl rfl (by decide) (by decide)
